import Mathlib

/-!
Shallow embedding of the ingestion-and-derivation pipeline of
`src/datacenter-control/backend/app.py` (a Flask backend that parses
per-rack sensor/network CSV tables and derives rack health metrics),
together with proofs settling the frozen claims about it.

Modelling conventions:
* Python floats are modelled by `PyFloat`: exact rationals plus the two
  infinities and NaN.  Float arithmetic is modelled exactly over `ℚ`
  (double rounding of intermediate results is not modelled; none of the
  claims depends on it), and Python's `round(x, n)` is modelled as exact
  round-half-to-even at `n` decimal digits.  String-to-float conversion
  saturates at the IEEE-754 binary64 overflow threshold
  `2^1024 - 2^970`: Python's `float()` on a decimal string returns an
  infinity instead of raising (`float("1e999")` is `inf`), and the model
  does the same (`pyFloatOfRat`); in-range magnitudes stay exact
  rationals (53-bit significand rounding and underflow to `0.0` are not
  modelled; no claim depends on them).
* A pandas cell is a `RawValue`: null-like (`NaN`/`None`, i.e. anything
  `pd.isna` accepts), a number, or a string.
* A dataframe row is an association list of (column label, cell) in the
  dataframe's column order; Python dicts are insertion-ordered
  association lists with last-write-wins insertion (`dictInsert`).
* `random.uniform` draws are modelled by an oracle `g : ℕ → ℚ` giving
  the successive draw results; range facts become hypotheses.
-/

namespace DC

/- Evaluating the binary64 overflow threshold `2^1024 - 2^970` unfolds a
recursion of depth 1024, beyond the default elaborator limit. -/
set_option maxRecDepth 8000

/-- Python float values; finite values are modelled exactly as rationals. -/
inductive PyFloat where
  | finite (q : ℚ)
  | inf
  | ninf
  | nan
deriving DecidableEq

/-- `x.isFinite`: true exactly on finite Python floats. -/
def PyFloat.isFinite : PyFloat → Bool
  | .finite _ => true
  | _ => false

/-- Python float addition (IEEE-754 special-value rules, exact rationals). -/
def pfAdd : PyFloat → PyFloat → PyFloat
  | .nan, _ => .nan
  | _, .nan => .nan
  | .finite a, .finite b => .finite (a + b)
  | .finite _, .inf => .inf
  | .finite _, .ninf => .ninf
  | .inf, .finite _ => .inf
  | .inf, .inf => .inf
  | .inf, .ninf => .nan
  | .ninf, .finite _ => .ninf
  | .ninf, .inf => .nan
  | .ninf, .ninf => .ninf

/-- Python `x > c` for a float `x` and a rational constant `c`. -/
def pfGtQ : PyFloat → ℚ → Bool
  | .finite a, c => decide (c < a)
  | .inf, _ => true
  | .ninf, _ => false
  | .nan, _ => false

/-- Python `x < c` for a float `x` and a rational constant `c`. -/
def pfLtQ : PyFloat → ℚ → Bool
  | .finite a, c => decide (a < c)
  | .inf, _ => false
  | .ninf, _ => true
  | .nan, _ => false

/-- Python `x == c` for a float `x` and a rational constant `c`
(`inf == c` and `nan == c` are false). -/
def pfEqQ : PyFloat → ℚ → Bool
  | .finite a, c => decide (a = c)
  | _, _ => false

/-- Python `x > y` on floats (false whenever NaN is involved). -/
def pfGt : PyFloat → PyFloat → Bool
  | .nan, _ => false
  | _, .nan => false
  | .inf, .inf => false
  | .inf, _ => true
  | .ninf, _ => false
  | .finite _, .inf => false
  | .finite a, .finite b => decide (b < a)
  | .finite _, .ninf => true

/-- Python `x < y` on floats. -/
def pfLt (x y : PyFloat) : Bool := pfGt y x

/-- Python `sum(...)` over floats (starts from `0`). -/
def pfSum (l : List PyFloat) : PyFloat := l.foldl pfAdd (.finite 0)

/-- Python `max(...)` over a nonempty float list: keep the candidate and
replace it whenever a later item compares strictly greater. -/
def pfMaxList : List PyFloat → PyFloat
  | [] => .nan
  | x :: t => t.foldl (fun c y => if pfGt y c then y else c) x

/-- Division of a float by a positive integer count. -/
def pfDivNat : PyFloat → ℕ → PyFloat
  | .finite a, n => .finite (a / n)
  | .inf, _ => .inf
  | .ninf, _ => .ninf
  | .nan, _ => .nan

/-- Division of a float by a positive rational constant. -/
def pfDivQ : PyFloat → ℚ → PyFloat
  | .finite a, c => .finite (a / c)
  | .inf, _ => .inf
  | .ninf, _ => .ninf
  | .nan, _ => .nan

/-- Python `round(q)` on an exact rational: round half to even. -/
def pyRoundInt (q : ℚ) : ℤ :=
  if q - ⌊q⌋ = (1 : ℚ) / 2 then (if ⌊q⌋ % 2 = 0 then ⌊q⌋ else ⌊q⌋ + 1)
  else ⌊q + 1 / 2⌋

/-- Python `round(q, d)` on an exact rational. -/
def roundTo (d : ℕ) (q : ℚ) : ℚ := (pyRoundInt (q * 10 ^ d) : ℚ) / 10 ^ d

/-- Python `round(x, d)` on a float (`round(inf, d) = inf`, `round(nan, d) = nan`). -/
def pfRound (d : ℕ) : PyFloat → PyFloat
  | .finite q => .finite (roundTo d q)
  | x => x

/-! ### String helpers (Python `str.lower`, `in`, `str.strip`) -/

/-- Python `s.lower()` (inputs are ASCII). -/
def pyLower (s : String) : String := ⟨s.data.map Char.toLower⟩

/-- Prefix test on character lists. -/
def isPrefixCh : List Char → List Char → Bool
  | [], _ => true
  | _ :: _, [] => false
  | a :: as, b :: bs => a = b && isPrefixCh as bs

/-- Substring test on character lists (needle second). -/
def hasSubstrCh : List Char → List Char → Bool
  | [], nd => nd.isEmpty
  | h :: t, nd => isPrefixCh nd (h :: t) || hasSubstrCh t nd

/-- Python `needle in hay` on strings. -/
def pyIn (needle hay : String) : Bool := hasSubstrCh hay.data needle.data

/-- Python `str.strip()` on a character list. -/
def pyStripList (l : List Char) : List Char :=
  ((l.dropWhile Char.isWhitespace).reverse.dropWhile Char.isWhitespace).reverse

/-- Python `s.strip()`. -/
def pyStrip (s : String) : String := ⟨pyStripList s.data⟩

/-! ### Raw cell values -/

/-- A raw pandas cell: null-like (anything `pd.isna` accepts), numeric, or text. -/
inductive RawValue where
  | null
  | num (q : ℚ)
  | str (s : String)
deriving DecidableEq

/-- `pd.isna` on a raw cell. -/
def pd_isna : RawValue → Bool
  | .null => true
  | _ => false

/-- Decimal-ish rendering of a rational, used only where the code calls
`str(...)` on a numeric cell; no claim inspects such text, so the exact
Python float formatting is not reproduced. -/
def ratRepr (q : ℚ) : String :=
  toString q.num ++ (if q.den = 1 then ".0" else "/" ++ toString q.den)

/-- Python `str(cell)` (`str(nan) = "nan"`). -/
def pyStrOfRaw : RawValue → String
  | .null => "nan"
  | .num q => ratRepr q
  | .str s => s

/-! ### `parse_sensor_value` (app.py lines 114-132)

The code first tries Python's built-in `float(value)`; if that raises it
applies `re.search(r'[-+]?\d*\.?\d+(?:[eE][-+]?\d+)?', str(value).strip())`
and converts the first match, defaulting to `0.0`. -/

/-- A run of decimal digits possibly containing single underscores between
digits, as accepted inside numeric literals by Python's `float()`; returns
the digits (underscores removed) and the unconsumed rest. -/
def digitsUF : ℕ → List Char → List Char × List Char
  | _, [] => ([], [])
  | 0, l => ([], l)
  | fuel + 1, c :: rest =>
    if c.isDigit then
      match rest with
      | '_' :: rest1 =>
        match rest1 with
        | d :: _ =>
          if d.isDigit then
            let p := digitsUF fuel rest1
            (c :: p.1, p.2)
          else ([c], '_' :: rest1)
        | [] => ([c], ['_'])
      | _ =>
        let p := digitsUF fuel rest
        (c :: p.1, p.2)
    else ([], c :: rest)

/-- Entry point: the fuel `l.length` dominates the recursion depth. -/
def digitsU (l : List Char) : List Char × List Char := digitsUF l.length l

/-- Numeric value of a digit run. -/
def natOfDigits (l : List Char) : ℕ :=
  l.foldl (fun a c => 10 * a + (c.toNat - '0'.toNat)) 0

/-- The IEEE-754 binary64 overflow threshold under round-to-nearest-even:
`2^1024 - 2^970`, the midpoint between the largest finite double
`2^1024 - 2^971` and `2^1024`.  An exact magnitude at or above it
converts to an infinity (the tie itself rounds up, to the even candidate
`2^1024`).  Computed over `ℕ`, which evaluates fast. -/
def doubleOverflow : ℚ := ((2 ^ 1024 - 2 ^ 970 : ℕ) : ℚ)

/-- Exact value of `10 ** e` for an integer exponent (the scale factor of
scientific notation); the power is taken over `ℕ` so that exponents as
large as `999` still evaluate. -/
def pow10 (e : ℤ) : ℚ :=
  if 0 ≤ e then ((10 ^ e.toNat : ℕ) : ℚ)
  else ((10 ^ (-e).toNat : ℕ) : ℚ)⁻¹

/-- Correctly-rounded decimal-to-double conversion as Python's `float()`
performs it on strings, restricted to what the claims need: magnitudes at
or above `doubleOverflow` saturate to `±inf` (Python returns an infinity
rather than raising: `float("1e999")` is `inf`); in-range values are kept
as exact rationals per the file's conventions. -/
def pyFloatOfRat (q : ℚ) : PyFloat :=
  if doubleOverflow ≤ q then .inf
  else if q ≤ -doubleOverflow then .ninf
  else .finite q

/-- Python's built-in `float(s)` on a string: strip whitespace, optional
sign, then `inf`/`infinity`/`nan` (case-insensitive) or a decimal literal
`(D [. D?] | . D) [(e|E) sign? D]` where `D` is a digit run with optional
underscores; numeric results saturate to `±inf` at the binary64 overflow
threshold.  `none` models `float(s)` raising `ValueError`. -/
def pyFloatOfString (s : String) : Option PyFloat :=
  let l := pyStripList s.data
  let sgnNeg : Bool := match l with | '-' :: _ => true | _ => false
  let l1 : List Char := match l with
    | '+' :: t => t
    | '-' :: t => t
    | t => t
  let low := l1.map Char.toLower
  if low = "inf".data ∨ low = "infinity".data then
    some (if sgnNeg then .ninf else .inf)
  else if low = "nan".data then some .nan
  else
    let mant : Option (ℚ × List Char) :=
      match l1 with
      | '.' :: t =>
        let p := digitsU t
        if p.1 = [] then none
        else some ((natOfDigits p.1 : ℚ) / (10 : ℚ) ^ p.1.length, p.2)
      | _ =>
        let p := digitsU l1
        if p.1 = [] then none
        else
          match p.2 with
          | '.' :: t2 =>
            let p2 := digitsU t2
            some ((natOfDigits p.1 : ℚ) +
              (natOfDigits p2.1 : ℚ) / (10 : ℚ) ^ p2.1.length, p2.2)
          | r => some ((natOfDigits p.1 : ℚ), r)
    match mant with
    | none => none
    | some (m, r) =>
      let signedM : ℚ := if sgnNeg then -m else m
      match r with
      | [] => some (pyFloatOfRat signedM)
      | c :: t =>
        if c = 'e' ∨ c = 'E' then
          let ex : Option (ℤ × List Char) :=
            match t with
            | '+' :: t2 =>
              let p := digitsU t2
              if p.1 = [] then none else some ((natOfDigits p.1 : ℤ), p.2)
            | '-' :: t2 =>
              let p := digitsU t2
              if p.1 = [] then none else some (-(natOfDigits p.1 : ℤ), p.2)
            | _ =>
              let p := digitsU t
              if p.1 = [] then none else some ((natOfDigits p.1 : ℤ), p.2)
          match ex with
          | some (e, []) => some (pyFloatOfRat (signedM * pow10 e))
          | _ => none
        else none

/-- Exponent part `(?:[eE][-+]?\d+)?` of the regex, matched greedily at
`l`; returns the consumed characters (empty when the group does not match). -/
def tryExpCh : List Char → List Char
  | c :: s :: t2 =>
    if c = 'e' ∨ c = 'E' then
      if s = '+' ∨ s = '-' then
        if t2.takeWhile Char.isDigit = [] then []
        else c :: s :: t2.takeWhile Char.isDigit
      else
        if (s :: t2).takeWhile Char.isDigit = [] then []
        else c :: (s :: t2).takeWhile Char.isDigit
    else []
  | _ => []

/-- Attempt `\.?\d+(?:[eE][-+]?\d+)?` at `l`, with `pre` the characters the
greedy `\d*` already consumed; mirrors the backtracking behaviour of
Python's `re` (the dot is taken iff digits follow it). -/
def tryFromCh (pre l : List Char) : Option (List Char) :=
  match l with
  | '.' :: t =>
    if t.takeWhile Char.isDigit = [] then none
    else some (pre ++ '.' :: (t.takeWhile Char.isDigit ++
      tryExpCh (t.dropWhile Char.isDigit)))
  | _ =>
    if l.takeWhile Char.isDigit = [] then none
    else some (pre ++ l.takeWhile Char.isDigit ++
      tryExpCh (l.dropWhile Char.isDigit))

/-- Backtracking over how many digits the greedy `\d*` keeps: `ds` is the
maximal digit run at the match position, `rest` what follows it; `k`
counts down from `ds.length`. -/
def bodyLoopCh (ds rest : List Char) : ℕ → Option (List Char)
  | 0 => tryFromCh [] (ds ++ rest)
  | k + 1 =>
    match tryFromCh (ds.take (k + 1)) (ds.drop (k + 1) ++ rest) with
    | some r => some r
    | none => bodyLoopCh ds rest k

/-- Match `\d*\.?\d+(?:[eE][-+]?\d+)?` at the head of `l`. -/
def matchBodyCh (l : List Char) : Option (List Char) :=
  let ds := l.takeWhile Char.isDigit
  bodyLoopCh ds (l.dropWhile Char.isDigit) ds.length

/-- Match the full pattern `[-+]?\d*\.?\d+(?:[eE][-+]?\d+)?` at the head
of `l`. -/
def matchAtCh (l : List Char) : Option (List Char) :=
  match l with
  | c :: t =>
    if c = '+' ∨ c = '-' then (matchBodyCh t).map (fun r => c :: r)
    else matchBodyCh (c :: t)
  | [] => none

/-- `re.search`: first (leftmost) position where the pattern matches. -/
def reSearchCh : List Char → Option (List Char)
  | [] => none
  | c :: t =>
    match matchAtCh (c :: t) with
    | some r => some r
    | none => reSearchCh t

/-- Exact decimal value of a token produced by the regex (always a valid
decimal literal, so `float(match.group())` never fails); the conversion
itself is `pyFloatOfRat (tokenVal t)`, which saturates to `±inf` on
overflow — e.g. the token `1e999` converts to `inf`. -/
def tokenVal (t : List Char) : ℚ :=
  let sgnNeg : Bool := match t with | '-' :: _ => true | _ => false
  let l1 : List Char := match t with
    | '+' :: r => r
    | '-' :: r => r
    | r => r
  let ip : ℚ := natOfDigits (l1.takeWhile Char.isDigit)
  let r1 := l1.dropWhile Char.isDigit
  let fp : ℚ :=
    match r1 with
    | '.' :: t2 =>
      (natOfDigits (t2.takeWhile Char.isDigit) : ℚ) /
        (10 : ℚ) ^ (t2.takeWhile Char.isDigit).length
    | _ => 0
  let r2 : List Char :=
    match r1 with
    | '.' :: t2 => t2.dropWhile Char.isDigit
    | r => r
  let e : ℤ :=
    match r2 with
    | _ :: '+' :: t4 => (natOfDigits (t4.takeWhile Char.isDigit) : ℤ)
    | _ :: '-' :: t4 => -(natOfDigits (t4.takeWhile Char.isDigit) : ℤ)
    | _ :: t3 => (natOfDigits (t3.takeWhile Char.isDigit) : ℤ)
    | [] => 0
  (if sgnNeg then -(ip + fp) else ip + fp) * pow10 e

/-- `parse_sensor_value` (app.py 114-132): total, never raises. -/
def parse_sensor_value (value : RawValue) : PyFloat :=
  match value with
  | .null => .finite 0
  | .num q => .finite q
  | .str s =>
    match pyFloatOfString s with
    | some f => f
    | none =>
      match reSearchCh (pyStripList s.data) with
      | some t => pyFloatOfRat (tokenVal t)
      | none => .finite 0

/-! ### Sensor readings and the rollup engine (app.py 134-272) -/

/-- One entry of a rack's `sensors` dict (the per-sensor dicts built in
`update_rack_data` / `create_sample_racks`).  `stype` is the dict's
`'type'` key (`"sensor"` or `"network"`). -/
structure SensorData where
  value : PyFloat
  status : String
  units : String
  raw_value : String
  stype : String
  interface : Option String := none
deriving DecidableEq

/-- Which counter a sensor increments in `calculate_rack_status`. -/
inductive EffStatus where
  | crit
  | warn
  | norm
deriving DecidableEq

/-- Per-sensor classification inside the loop of `calculate_rack_status`
(app.py 140-165): substring tests on the lowered status text first, then
the temperature-name/value heuristic.  Note that `'critical' in status`
is tested before `'non-critical' in status`, and `"critical"` is a
substring of `"non-critical"`. -/
def sensorEffStatus (sensor_name : String) (sensor_data : SensorData) : EffStatus :=
  let status := pyLower sensor_data.status
  if pyIn "critical" status || pyIn "non-recoverable" status then .crit
  else if pyIn "non-critical" status || pyIn "warning" status then .warn
  else if pyIn "ok" status || pyIn "normal" status then .norm
  else
    let sensor_lower := pyLower sensor_name
    if pyIn "temp" sensor_lower || pyIn "temperature" sensor_lower then
      if pfGtQ sensor_data.value 85 then .crit
      else if pfGtQ sensor_data.value 75 then .warn
      else .norm
    else .norm

/-- The `(critical_count, warning_count, normal_count)` totals of
`calculate_rack_status`'s loop.  (In the embedding every entry is a dict,
so the `isinstance(sensor_data, dict)` guard is always true.) -/
def statusCounts (sensors : List (String × SensorData)) : ℕ × ℕ × ℕ :=
  sensors.foldl
    (fun c p =>
      match sensorEffStatus p.1 p.2 with
      | .crit => (c.1 + 1, c.2.1, c.2.2)
      | .warn => (c.1, c.2.1 + 1, c.2.2)
      | .norm => (c.1, c.2.1, c.2.2 + 1))
    (0, 0, 0)

/-- `calculate_rack_status` (app.py 134-178).  Python's float division and
the literals `0.1`/`0.2` are modelled by exact rational arithmetic. -/
def calculate_rack_status (sensors : List (String × SensorData)) : String :=
  let c := statusCounts sensors
  let critical_count := c.1
  let warning_count := c.2.1
  let normal_count := c.2.2
  let total_sensors := critical_count + warning_count + normal_count
  if total_sensors = 0 then "unknown"
  else if 0 < critical_count ∧
      (1 : ℚ) / 10 < (critical_count : ℚ) / (total_sensors : ℚ) then "critical"
  else if 0 < warning_count ∧
      (1 : ℚ) / 5 < (warning_count : ℚ) / (total_sensors : ℚ) then "warning"
  else "normal"

/-- The predicate selecting temperature samples in
`calculate_rack_temperature`: temperature-named (not voltage) and value
strictly inside (-10, 120). -/
def isTempSample (sensor_name : String) (sensor_data : SensorData) : Bool :=
  let sensor_lower := pyLower sensor_name
  ((pyIn "temp" sensor_lower || pyIn "temperature" sensor_lower) &&
      !pyIn "volt" sensor_lower) &&
    (pfGtQ sensor_data.value (-10) && pfLtQ sensor_data.value 120)

/-- Python `sorted` on floats, ascending (stable insertion sort; the
samples it is applied to are all finite). -/
def pfInsertSorted (x : PyFloat) : List PyFloat → List PyFloat
  | [] => [x]
  | y :: t => if pfLt y x then y :: pfInsertSorted x t else x :: y :: t

/-- Python `sorted(l)` for floats. -/
def pySorted (l : List PyFloat) : List PyFloat := l.foldr pfInsertSorted []

/-- Python list slice `l[a:b]` (for `0 ≤ a ≤ b ≤ len l`, as used here). -/
def pySlice (l : List PyFloat) (a b : ℕ) : List PyFloat := (l.take b).drop a

/-- `calculate_rack_temperature` (app.py 180-202). -/
def calculate_rack_temperature (sensors : List (String × SensorData)) : PyFloat :=
  let temps := sensors.foldl
    (fun acc p => if isTempSample p.1 p.2 then acc ++ [p.2.value] else acc) []
  if temps ≠ [] then
    let temps_sorted := pySorted temps
    let n := temps_sorted.length
    let start := n / 4
    let stop := 3 * n / 4
    let middle_temps := if n > 4 then pySlice temps_sorted start stop else temps
    pfRound 1 (pfDivNat (pfSum middle_temps) middle_temps.length)
  else .finite 40

/-- `calculate_rack_power` (app.py 204-227). -/
def calculate_rack_power (sensors : List (String × SensorData)) : PyFloat :=
  let power_values := sensors.foldl
    (fun acc p =>
      if ["power", "watt", "current", "amp"].any (fun t => pyIn t (pyLower p.1))
      then acc ++ [p.2.value] else acc) []
  if power_values ≠ [] then
    let total_power := pfSum power_values
    if pfGtQ total_power 10000 then pfRound 2 (pfDivQ total_power 1000)
    else pfRound 2 total_power
  else
    let temp_sensors := (sensors.filter (fun p =>
      pyIn "temp" (pyLower p.1) || pyIn "temperature" (pyLower p.1))).length
    .finite (roundTo 2 (1 + temp_sensors * (5 / 100 : ℚ)))

/-- One entry of a rack's per-interface network dict. -/
structure NetEntry where
  value : PyFloat
  status : String
  units : String
deriving DecidableEq

/-- The metrics dict computed by `calculate_network_metrics`. -/
structure NetworkMetrics where
  total_throughput : PyFloat
  avg_throughput : PyFloat
  max_throughput : PyFloat
  interface_count : ℕ
  status : String
deriving DecidableEq

/-- The all-zero default network metrics dict. -/
def defaultNetworkMetrics : NetworkMetrics :=
  { total_throughput := .finite 0
    avg_throughput := .finite 0
    max_throughput := .finite 0
    interface_count := 0
    status := "normal" }

/-- `calculate_network_metrics` (app.py 229-272). -/
def calculate_network_metrics (network_data : List (String × NetEntry)) :
    NetworkMetrics :=
  if network_data = [] then defaultNetworkMetrics
  else
    let throughput_values := network_data.map (fun p => p.2.value)
    if throughput_values ≠ [] then
      let total_throughput := pfSum throughput_values
      let avg_throughput := pfDivNat total_throughput throughput_values.length
      let max_throughput := pfMaxList throughput_values
      let network_status :=
        if pfGtQ max_throughput 95 then "critical"
        else if pfGtQ max_throughput 85 then "warning"
        else "normal"
      { total_throughput := pfRound 2 total_throughput
        avg_throughput := pfRound 2 avg_throughput
        max_throughput := pfRound 2 max_throughput
        interface_count := throughput_values.length
        status := network_status }
    else defaultNetworkMetrics

/-! ### Tables, rows and Python dicts -/

/-- A dataframe row: (column label, cell) pairs in the dataframe's column
order.  Column labels are unique, so iterating `for col in df.columns`
with accesses `row[col]` is iteration over this list. -/
abbrev Row := List (String × RawValue)

/-- Python dict assignment `d[k] = v`: overwrite in place if the key
exists (keeping its position), else append. -/
def dictInsert {κ α : Type} [DecidableEq κ] :
    List (κ × α) → κ → α → List (κ × α)
  | [], k, v => [(k, v)]
  | p :: t, k, v => if p.1 = k then (k, v) :: t else p :: dictInsert t k v

/-- Python dict lookup `d.get(k)`. -/
def dictGet? {κ α : Type} [DecidableEq κ] (l : List (κ × α)) (k : κ) :
    Option α :=
  (l.find? (fun p => decide (p.1 = k))).map (fun p => p.2)

/-- `defaultdict(list)`-style append of `x` to the group of key `k`. -/
def groupAppend {κ α : Type} [DecidableEq κ]
    (l : List (κ × List α)) (k : κ) (x : α) : List (κ × List α) :=
  match dictGet? l k with
  | some xs => dictInsert l k (xs ++ [x])
  | none => l ++ [(k, [x])]

/-- Python `set.add` on a set modelled as a duplicate-free list. -/
def setAdd (l : List String) (x : String) : List String :=
  if l.contains x then l else l ++ [x]

/-- `str(x)` for a float value (only `raw_value` fields use this; no claim
inspects the text). -/
def pfStr : PyFloat → String
  | .finite q => ratRepr q
  | .inf => "inf"
  | .ninf => "-inf"
  | .nan => "nan"

/-! ### The sensor-row loader (body of the row loop of `update_rack_data`,
app.py 401-477) -/

/-- Status inferred from the value when no usable status column exists
(app.py 448-459; note it tests only `'temp'`, unlike the rollup). -/
def statusFromValue (sensor_name : String) (sensor_value : PyFloat) : String :=
  if pyIn "temp" (pyLower sensor_name) then
    if pfGtQ sensor_value 85 then "critical"
    else if pfGtQ sensor_value 75 then "warning"
    else "ok"
  else "ok"

/-- The row's resolved value (app.py 417-435): the first `value`/`reading`
keyword column, else—fallback—the first column whose label is not
*literally* `Sensor`, `Status` or `Units` (`parse_sensor_value` never
raises, so the first such column always wins), else `0`. -/
def sensorRowValue (row : Row) : PyFloat :=
  match row.find? (fun p =>
      pyIn "value" (pyLower p.1) || pyIn "reading" (pyLower p.1)) with
  | some p => parse_sensor_value p.2
  | none =>
    match row.find? (fun p =>
        decide (p.1 ≠ "Sensor" ∧ p.1 ≠ "Status" ∧ p.1 ≠ "Units")) with
    | some p => parse_sensor_value p.2
    | none => .finite 0

/-- The row's resolved status (app.py 437-459): first `status` keyword
column (the scan `break`s there even when its cell is null), value-based
inference otherwise. -/
def sensorRowStatus (row : Row) (sensor_name : String)
    (sensor_value : PyFloat) : String :=
  match row.find? (fun p => pyIn "status" (pyLower p.1)) with
  | some p =>
    if !pd_isna p.2 then pyStrip (pyStrOfRaw p.2)
    else statusFromValue sensor_name sensor_value
  | none => statusFromValue sensor_name sensor_value

/-- The row's resolved units (app.py 461-468). -/
def sensorRowUnits (row : Row) : String :=
  match row.find? (fun p => pyIn "unit" (pyLower p.1)) with
  | some p => if !pd_isna p.2 then pyStrip (pyStrOfRaw p.2) else ""
  | none => ""

/-- Process one sensor row: resolve name, value, status and units columns
per the code's keyword scans; `none` models the `continue` taken when no
usable sensor name is found. -/
def processSensorRow (row : Row) : Option (String × SensorData) :=
  match row.find? (fun p =>
      pyIn "sensor" (pyLower p.1) || pyIn "name" (pyLower p.1)) with
  | none => none
  | some q =>
    if pyStrip (pyStrOfRaw q.2) = "" then none
    else
      some (pyStrip (pyStrOfRaw q.2),
        { value := sensorRowValue row
          status := sensorRowStatus row (pyStrip (pyStrOfRaw q.2))
            (sensorRowValue row)
          units := sensorRowUnits row
          raw_value := pfStr (sensorRowValue row)
          stype := "sensor" })

/-- The `(sensors_dict, sensor_count)` pair built by the row loop. -/
def processRackSensors (rows : List Row) :
    List (String × SensorData) × ℕ :=
  rows.foldl
    (fun acc row =>
      match processSensorRow row with
      | none => acc
      | some e => (dictInsert acc.1 e.1 e.2, acc.2 + 1))
    ([], 0)

/-- Adding the per-interface network entries to a rack's sensors dict
(app.py 503-517): each interface becomes sensor `Network_<iface>` and
increments `sensor_count`. -/
def addNetworkSensors (start : List (String × SensorData) × ℕ)
    (data : List (String × NetEntry)) : List (String × SensorData) × ℕ :=
  data.foldl
    (fun acc p =>
      (dictInsert acc.1 ("Network_" ++ p.1)
        { value := p.2.value
          status := p.2.status
          units := p.2.units
          raw_value := pfStr p.2.value
          stype := "network"
          interface := some p.1 }, acc.2 + 1))
    start

/-- The sensor-category classification chain of `update_rack_data`
(app.py 539-562). -/
def categorize (sensor_name : String) (sensor_data : SensorData) : String :=
  let sl := pyLower sensor_name
  if (["temp", "temperature", "thermal"].any (fun t => pyIn t sl)) &&
      !pyIn "volt" sl then "temperature"
  else if ["power", "watt", "volt", "current", "vrm", "vbat", "vcc", "vcpu",
      "vdimm"].any (fun t => pyIn t sl) then "power"
  else if ["cpu", "processor", "core"].any (fun t => pyIn t sl) then "cpu"
  else if ["memory", "ram", "swap", "dimm"].any (fun t => pyIn t sl) then
    "memory"
  else if ["fan", "rpm", "cooling", "airflow"].any (fun t => pyIn t sl) then
    "cooling"
  else if sensor_data.stype = "network" ||
      ["network", "interface", "port", "nic", "throughput", "bandwidth"].any
        (fun t => pyIn t sl) then "network"
  else if ["disk", "storage", "io", "read", "write", "hdd", "sas"].any
      (fun t => pyIn t sl) then "disk"
  else if ["humidity", "moisture"].any (fun t => pyIn t sl) then "environment"
  else "other"

/-- Add every sensor of a rack to the process-wide category index. -/
def addCategories (cats : List (String × List String))
    (sensors : List (String × SensorData)) : List (String × List String) :=
  sensors.foldl (fun cs p =>
    match dictGet? cs (categorize p.1 p.2) with
    | some s => dictInsert cs (categorize p.1 p.2) (setAdd s p.1)
    | none => cs ++ [(categorize p.1 p.2, [p.1])]) cats

/-- The four per-rack category counters kept in `rack_metadata`. -/
structure CategoryCounts where
  temperature : ℕ
  power : ℕ
  network : ℕ
  cooling : ℕ
  total : ℕ
deriving DecidableEq

/-- The counters of the categorize loop for one rack. -/
def categoryCounts (sensors : List (String × SensorData)) (total : ℕ) :
    CategoryCounts :=
  { temperature := sensors.countP (fun p => categorize p.1 p.2 == "temperature")
    power := sensors.countP (fun p => categorize p.1 p.2 == "power")
    network := sensors.countP (fun p => categorize p.1 p.2 == "network")
    cooling := sensors.countP (fun p => categorize p.1 p.2 == "cooling")
    total := total }

/-! ### The network-table loader (row loop of `load_network_data`,
app.py 306-367) -/

/-- Resolve a network row's interface name: first keyword-matching column
whose cell is not null (the `break` sits inside the `isna` check), then
skip the row when the stripped text is empty. -/
def netRowInterface (row : Row) : Option String :=
  match row.find? (fun p =>
      (["interface", "port", "nic", "network", "name"].any
        (fun t => pyIn t (pyLower p.1))) && !pd_isna p.2) with
  | some p =>
    let n := pyStrip (pyStrOfRaw p.2)
    if n = "" then none else some n
  | none => none

/-- Resolve a network row's throughput: keyword column first; if the
result compares equal to `0`, fall back to the first column, other than
those literally labelled `Interface`/`Port`/`Name`, that parses to a
positive value. -/
def netRowThroughput (row : Row) : PyFloat :=
  let t0 : PyFloat :=
    match row.find? (fun p =>
        (["throughput", "bandwidth", "speed", "rate", "utilization", "value",
          "mbps", "gbps"].any (fun t => pyIn t (pyLower p.1))) &&
          !pd_isna p.2) with
    | some p => parse_sensor_value p.2
    | none => .finite 0
  if pfEqQ t0 0 then
    match row.find? (fun p =>
        (decide (p.1 ≠ "Interface" ∧ p.1 ≠ "Port" ∧ p.1 ≠ "Name")) &&
          pfGtQ (parse_sensor_value p.2) 0) with
    | some p => parse_sensor_value p.2
    | none => t0
  else t0

/-- Per-row interface status thresholds (app.py 343-348): `> 95` critical,
`> 85` warning, else ok. -/
def rowStatusOf (v : PyFloat) : String :=
  if pfGtQ v 95 then "critical" else if pfGtQ v 85 then "warning" else "ok"

/-- The `(network_data, interface_count)` pair produced by parsing a
network table's rows (before the sample-data fallback).  Rows with no
usable interface name or a non-positive throughput are dropped. -/
def loadNetworkRows (rows : List Row) : List (String × NetEntry) × ℕ :=
  rows.foldl
    (fun acc row =>
      match netRowInterface row with
      | none => acc
      | some iface =>
        let t := netRowThroughput row
        if pfGtQ t 0 then
          (dictInsert acc.1 iface
            { value := t, status := rowStatusOf t, units := "Mbps" },
            acc.2 + 1)
        else acc)
    ([], 0)

/-- One synthesized sample interface (app.py 360-366): value is the drawn
throughput rounded to 2 decimals; the status thresholds are written
`< 85` / `< 95` here, unlike the row path's `> 95` / `> 85`. -/
def synthNetEntry (throughput : ℚ) : NetEntry :=
  { value := .finite (roundTo 2 throughput)
    status :=
      if throughput < 85 then "ok"
      else if throughput < 95 then "warning"
      else "critical"
    units := "Mbps" }

/-- One network table (app.py 306-367): parse the rows; if nothing was
parsed, synthesize `eth1..eth4` with throughput drawn by `uniform(10, 80)`
(modelled by the oracle `g`; the loop `for i in range(1, 5)` is unrolled —
its four keys are distinct, so each dict assignment appends).  Returns
`(network_data, interface_count, draws consumed)`. -/
def loadNetworkTable (rows : List Row) (g : ℕ → ℚ) :
    List (String × NetEntry) × ℕ × ℕ :=
  let p := loadNetworkRows rows
  if p.1 = [] then
    ([("eth1", synthNetEntry (g 0)), ("eth2", synthNetEntry (g 1)),
      ("eth3", synthNetEntry (g 2)), ("eth4", synthNetEntry (g 3))], 4, 4)
  else (p.1, p.2, 0)

/-! ### Rack-number extraction from filenames (app.py 82-112) -/

/-- The separator class `[_\s\-]` of the extraction patterns. -/
def isSepCh (c : Char) : Bool := c = '_' || c.isWhitespace || c = '-'

/-- Try `lit` + (optionally separators) + digits at the head of `l`. -/
def tryLitSepsDigits (lit : List Char) (useSeps : Bool) (l : List Char) :
    Option ℕ :=
  if isPrefixCh lit l then
    let rest := l.drop lit.length
    let rest2 := if useSeps then rest.dropWhile isSepCh else rest
    let ds := rest2.takeWhile Char.isDigit
    if ds = [] then none else some (natOfDigits ds)
  else none

/-- `re.search` of `lit[_\s\-]*(\d+)` (or `lit(\d+)`): leftmost position
at which the pattern matches. -/
def searchLitDigits (lit : List Char) (useSeps : Bool) :
    List Char → Option ℕ
  | [] => none
  | c :: t =>
    match tryLitSepsDigits lit useSeps (c :: t) with
    | some n => some n
    | none => searchLitDigits lit useSeps t

/-- Try `(\d+)[_\s\-]*lit` at the head of `l` (the greedy digit run must
be maximal: a shorter run would be followed by a digit, which is neither
a separator nor the literal's first character). -/
def tryDigitsSepsLit (lit : List Char) (l : List Char) : Option ℕ :=
  let ds := l.takeWhile Char.isDigit
  if ds = [] then none
  else
    let rest := (l.dropWhile Char.isDigit).dropWhile isSepCh
    if isPrefixCh lit rest then some (natOfDigits ds) else none

/-- `re.search` of `(\d+)[_\s\-]*lit`. -/
def searchDigitsLit (lit : List Char) : List Char → Option ℕ
  | [] => none
  | c :: t =>
    match tryDigitsSepsLit lit (c :: t) with
    | some n => some n
    | none => searchDigitsLit lit t

/-- First bare number anywhere in the string (`re.findall(r'\d+', ...)`'s
first element). -/
def firstNumber : List Char → Option ℕ
  | [] => none
  | c :: t =>
    if c.isDigit then some (natOfDigits ((c :: t).takeWhile Char.isDigit))
    else firstNumber t

/-- `extract_rack_number` (app.py 82-112): the six patterns in order on
the lowered filename, then the first bare number of the original. -/
def extract_rack_number (filename : String) : Option ℕ :=
  let fl := (pyLower filename).data
  match searchLitDigits "rack".data true fl with
  | some n => some n
  | none =>
  match searchLitDigits "r".data false fl with
  | some n => some n
  | none =>
  match searchLitDigits "server".data true fl with
  | some n => some n
  | none =>
  match searchLitDigits "node".data true fl with
  | some n => some n
  | none =>
  match searchDigitsLit "rack".data fl with
  | some n => some n
  | none =>
  match searchDigitsLit "server".data fl with
  | some n => some n
  | none => firstNumber filename.data

/-- Python `s.endswith(suffix)`. -/
def pyEndsWith (s suffix : String) : Bool :=
  isPrefixCh suffix.data.reverse s.data.reverse

/-! ### The registry and the reload pipeline (app.py 274-385, 387-573,
575-649, 651-729, 1208-1222)

The process-wide mutable state.  `gauges`/`seen_metric_names` (Prometheus
metric registration) and snapshot timestamps are not modelled; no claim
mentions them.  File-system and `random.uniform` effects are supplied by
oracles (`FS`, `g : ℕ → ℚ`); an `Except.error` models an uncaught Python
exception. -/

structure RackFileInfo where
  filename : String
  table : List Row
  all_files : List String
deriving DecidableEq

structure RackMeta where
  filename : String
  sensor_categories : CategoryCounts
deriving DecidableEq

structure RackSnapshot where
  sensors : List (String × SensorData)
  status : String
  temperature : PyFloat
  power : PyFloat
  network : NetworkMetrics
  sensor_count : ℕ
deriving DecidableEq

structure NetFileInfo where
  filename : String
  data : List (String × NetEntry)
  interface_count : ℕ
  metrics : NetworkMetrics
deriving DecidableEq

/-- The module-level registry state (app.py 39-46). -/
structure Registry where
  rack_files : List (ℕ × RackFileInfo)
  rack_data : List (ℕ × RackSnapshot)
  rack_metadata : List (ℕ × RackMeta)
  sensor_categories : List (String × List String)
  current_state : List (String × PyFloat)
deriving DecidableEq

/-- File-system oracle: folder existence, directory listings and file
reads; `Except.error` models a raised `OSError`/parse failure. -/
structure FS where
  sensorFolderExists : Bool
  sensorListing : Except String (List String)
  readSensor : String → Except String (List Row)
  networkFolderExists : Bool
  networkListing : Except String (List String)
  readNetwork : String → Except String (List Row)

/-- `load_network_data` (app.py 274-385).  A missing folder yields `{}`;
a failing `os.listdir` raises (it is outside any `try`); per-file failures
are caught and skipped.  `off` is the index of the next unused draw of
the uniform oracle. -/
def load_network_data (fs : FS) (g : ℕ → ℚ) (off : ℕ) :
    Except String (List (ℕ × NetFileInfo)) :=
  if !fs.networkFolderExists then .ok []
  else
    match fs.networkListing with
    | .error e => .error e
    | .ok files =>
      let csv_files := files.filter (fun f => pyEndsWith f ".csv")
      .ok (csv_files.foldl
        (fun (acc : List (ℕ × NetFileInfo) × ℕ) filename =>
          match extract_rack_number filename with
          | none => acc
          | some rack_id =>
            match fs.readNetwork filename with
            | .error _ => acc
            | .ok rows =>
              let p := loadNetworkTable rows (fun k => g (acc.2 + k))
              (dictInsert acc.1 rack_id
                { filename := filename
                  data := p.1
                  interface_count := p.2.1
                  metrics := calculate_network_metrics p.1 },
                acc.2 + p.2.2))
        ([], off)).1

/-- `update_rack_data` (app.py 387-573): load network data (its failing
directory listing is the only uncaught failure point, and it happens
before any rack is processed), then rebuild `rack_data`, `rack_metadata`,
`sensor_categories` and `current_state` entries per rack. -/
def update_rack_data (fs : FS) (g : ℕ → ℚ) (off : ℕ) (st : Registry) :
    Except String Registry :=
  match load_network_data fs g off with
  | .error e => .error e
  | .ok network_data =>
    .ok (st.rack_files.foldl
      (fun acc p =>
        let rack_id := p.1
        let rack_info := p.2
        let entries := rack_info.table.filterMap processSensorRow
        let sp := processRackSensors rack_info.table
        let cs2 := entries.foldl
          (fun cs e => dictInsert cs e.1 e.2.value) acc.current_state
        let netInfo := dictGet? network_data rack_id
        let withNet :=
          match netInfo with
          | some info => addNetworkSensors sp info.data
          | none => sp
        let network_metrics :=
          match netInfo with
          | some info => info.metrics
          | none => defaultNetworkMetrics
        let sensors_dict := withNet.1
        let sensor_count := withNet.2
        if sensors_dict ≠ [] then
          { acc with
            rack_data := dictInsert acc.rack_data rack_id
              { sensors := sensors_dict
                status := calculate_rack_status sensors_dict
                temperature := calculate_rack_temperature sensors_dict
                power := calculate_rack_power sensors_dict
                network := network_metrics
                sensor_count := sensor_count }
            rack_metadata := dictInsert acc.rack_metadata rack_id
              { filename := rack_info.filename
                sensor_categories := categoryCounts sensors_dict sensor_count }
            sensor_categories := addCategories acc.sensor_categories sensors_dict
            current_state := cs2 }
        else { acc with current_state := cs2 })
      st)

/-- The fixed sample sensor names of `create_sample_racks` (app.py 655-659). -/
def sample_sensors : List String :=
  ["CPU1 Temp", "CPU2 Temp", "System Temp",
   "FAN1", "FAN2", "12V", "5VCC", "3.3VCC",
   "P1-DIMMA1 Temp", "Vcpu1"]

/-- Generate one sample sensor's `(value, status, units)` (app.py 664-693);
`uniform(a, b)` draws are the successive oracle values, so the
voltage sub-cases (which differ only in the drawn range) collapse.
Returns the generated row data and the next unused draw index. -/
def genSampleSensor (g : ℕ → ℚ) (i : ℕ) (sensor : String) :
    (ℚ × String × String) × ℕ :=
  if pyIn "Temp" sensor then
    let base_temp := 40 + g i
    if pyIn "CPU" sensor then
      let value := base_temp + g (i + 1)
      ((value,
        if value < 70 then "ok" else if value < 80 then "warning"
        else "critical",
        "degrees C"), i + 2)
    else ((base_temp + g (i + 1), "ok", "degrees C"), i + 2)
  else if pyIn "FAN" sensor then ((g i, "ok", "RPM"), i + 1)
  else if pyIn "V" sensor then ((g i, "ok", "Volts"), i + 1)
  else ((g i, "ok", "degrees C"), i + 1)

/-- The dummy dataframe rows of one sample rack (app.py 713-719): columns
`Sensor`, `Value`, `Units`, `Status`; values rounded to 3 decimals. -/
def sampleRackRows (g : ℕ → ℚ) (off : ℕ) : List Row × ℕ :=
  sample_sensors.foldl
    (fun (acc : List Row × ℕ) sensor =>
      let r := genSampleSensor g acc.2 sensor
      (acc.1 ++
        [[("Sensor", RawValue.str sensor),
          ("Value", RawValue.num (roundTo 3 r.1.1)),
          ("Units", RawValue.str r.1.2.2),
          ("Status", RawValue.str r.1.2.1)]],
        r.2))
    ([], off)

/-- The five sample `rack_files` entries built by `create_sample_racks`
(app.py 651-726).  The local sample `network_data` it also builds (4
draws per rack) is never stored anywhere — the draws are consumed and
the dict is discarded. -/
def create_sample_rack_files (g : ℕ → ℚ) : List (ℕ × RackFileInfo) × ℕ :=
  (List.range 5).foldl
    (fun (acc : List (ℕ × RackFileInfo) × ℕ) r =>
      let rack_id := r + 1
      let p := sampleRackRows g acc.2
      -- sample network_data: 4 more draws, built then dropped
      let off2 := p.2 + 4
      (acc.1 ++
        [(rack_id,
          { filename := "sample_rack_" ++ toString rack_id ++ ".csv"
            table := p.1
            all_files := ["sample_rack_" ++ toString rack_id ++ ".csv"] })],
        off2))
    ([], 0)

/-- `load_rack_data` (app.py 575-649): clear the four rack-keyed
structures (`current_state` is *not* cleared), then rebuild from the
discovered files, falling back to `create_sample_racks` when none exist.
The second component is the uncaught exception, if any; the registry
returned alongside it is the state at the point the exception escaped. -/
def load_rack_data (fs : FS) (g : ℕ → ℚ) (st : Registry) :
    Registry × Option String :=
  let st1 := { st with rack_files := [], rack_data := [],
                       rack_metadata := [], sensor_categories := [] }
  if !fs.sensorFolderExists then
    let p := create_sample_rack_files g
    let st2 := { st1 with rack_files := p.1 }
    match update_rack_data fs g p.2 st2 with
    | .ok st3 => (st3, none)
    | .error e => (st2, some e)
  else
    match fs.sensorListing with
    | .error e => (st1, some e)
    | .ok files =>
      let csv_files := files.filter (fun f => pyEndsWith f ".csv")
      if csv_files.length = 0 then
        let p := create_sample_rack_files g
        let st2 := { st1 with rack_files := p.1 }
        match update_rack_data fs g p.2 st2 with
        | .ok st3 => (st3, none)
        | .error e => (st2, some e)
      else
        let rack_numbers := csv_files.foldl
          (fun (acc : List (ℕ × List String)) f =>
            match extract_rack_number f with
            | some rid => if rid ≠ 0 then groupAppend acc rid f else acc
            | none => acc)
          []
        let rf := rack_numbers.foldl
          (fun (acc : List (ℕ × RackFileInfo)) p =>
            match p.2 with
            | [] => acc
            | filename :: _ =>
              match fs.readSensor filename with
              | .error _ => acc
              | .ok rows =>
                acc ++ [(p.1,
                  { filename := filename, table := rows, all_files := p.2 })])
          []
        let st2 := { st1 with rack_files := rf }
        match update_rack_data fs g 0 st2 with
        | .ok st3 => (st3, none)
        | .error e => (st2, some e)

/-- `reload_data` (app.py 1208-1222): run a reload, catching any raised
exception; the boolean is the success flag of the JSON response. -/
def reload_data (fs : FS) (g : ℕ → ℚ) (st : Registry) : Registry × Bool :=
  let p := load_rack_data fs g st
  (p.1, p.2.isNone)

/-! ### Claim-side derived quantities -/

/-- The number of sensors `calculate_rack_status` counts as critical. -/
def critCount (sensors : List (String × SensorData)) : ℕ :=
  sensors.countP (fun p => decide (sensorEffStatus p.1 p.2 = EffStatus.crit))

/-- The number of sensors `calculate_rack_status` counts as warning. -/
def warnCount (sensors : List (String × SensorData)) : ℕ :=
  sensors.countP (fun p => decide (sensorEffStatus p.1 p.2 = EffStatus.warn))

/-- The number of sensors `calculate_rack_status` counts as normal. -/
def normCount (sensors : List (String × SensorData)) : ℕ :=
  sensors.countP (fun p => decide (sensorEffStatus p.1 p.2 = EffStatus.norm))

/-- The temperature samples of a rack, as a filter (the loop of
`calculate_rack_temperature` collects exactly these, in order). -/
def tempSamples (sensors : List (String × SensorData)) : List PyFloat :=
  sensors.filterMap (fun p =>
    if isTempSample p.1 p.2 then some p.2.value else none)

/-- Sequential dict insertion of a list of (key, value) pairs. -/
def insertAll {κ α : Type} [DecidableEq κ]
    (d : List (κ × α)) (ps : List (κ × α)) : List (κ × α) :=
  ps.foldl (fun d p => dictInsert d p.1 p.2) d

/-- The network-sensor entry added for one interface (app.py 509-516). -/
def netSensorEntry (p : String × NetEntry) : String × SensorData :=
  ("Network_" ++ p.1,
    { value := p.2.value
      status := p.2.status
      units := p.2.units
      raw_value := pfStr p.2.value
      stype := "network"
      interface := some p.1 })

/-- Modelled from the claim's words (C5): the value of "the first column
not already claimed by the name, status, or units roles", i.e. not the
first keyword match for each of those roles. -/
def claimFallbackValue (row : Row) : Option PyFloat :=
  let nameCol := (row.find? (fun p =>
    pyIn "sensor" (pyLower p.1) || pyIn "name" (pyLower p.1))).map Prod.fst
  let statusCol := (row.find? (fun p => pyIn "status" (pyLower p.1))).map Prod.fst
  let unitsCol := (row.find? (fun p => pyIn "unit" (pyLower p.1))).map Prod.fst
  (row.find? (fun p => decide (some p.1 ≠ nameCol ∧ some p.1 ≠ statusCol ∧
    some p.1 ≠ unitsCol))).map (fun p => parse_sensor_value p.2)

/-! ### Declarative form of the numeric pattern (for C3)

A token matches the mantissa `\d*\.?\d+` iff it is a nonempty string of
digits and at most one dot whose last character is a digit; `expOK` is
the exponent group `(?:[eE][-+]?\d+)?`, and `tokenOK` the full pattern
`[-+]?\d*\.?\d+(?:[eE][-+]?\d+)?` anchored to the whole token. -/

/-- Declarative mantissa check. -/
def mantOK (m : List Char) : Bool :=
  (decide (m ≠ []) && m.all (fun c => c.isDigit || c = '.')) &&
    ((decide (m.countP (fun c => decide (c = '.')) ≤ 1)) &&
      (match m.getLast? with
       | some c => c.isDigit
       | none => false))

/-- Declarative exponent-group check (empty, or `e`/`E`, optional sign,
then one or more digits and nothing else). -/
def expOK (x : List Char) : Bool :=
  match x with
  | [] => true
  | c :: t =>
    (c = 'e' || c = 'E') &&
      (match t with
       | s :: t2 =>
         if s = '+' ∨ s = '-' then decide (t2 ≠ []) && t2.all Char.isDigit
         else decide (t ≠ []) && t.all Char.isDigit
       | [] => false)

/-- Declarative check for the unsigned body `\d*\.?\d+(?:[eE][-+]?\d+)?`. -/
def bodyOK (r : List Char) : Bool :=
  mantOK (r.takeWhile (fun c => c.isDigit || c = '.')) &&
    expOK (r.dropWhile (fun c => c.isDigit || c = '.'))

/-- Declarative check for the whole pattern, anchored to the token. -/
def tokenOK (t : List Char) : Bool :=
  match t with
  | c :: r => if c = '+' ∨ c = '-' then bodyOK r else bodyOK (c :: r)
  | [] => bodyOK []

/-! ### Concrete fixtures used to instantiate the claims -/

/-- A sensor dict entry with a given status text and value `0.0`. -/
def sdWith (st : String) : SensorData :=
  { value := .finite 0, status := st, units := "", raw_value := "0.0",
    stype := "sensor" }

/-- Ten sensors, exactly one of them with status `critical`. -/
def exampleSensors10 : List (String × SensorData) :=
  ("S0", sdWith "critical") ::
    (List.range 9).map (fun i => ("S" ++ toString (i + 1), sdWith "ok"))

/-- Five temperature sensors with values 10, 20, 30, 40, 200 (the spec's
trimmed-mean example; 200 is outside the plausible range). -/
def exampleTempSensors : List (String × SensorData) :=
  [("Temp1", { sdWith "ok" with value := .finite 10 }),
   ("Temp2", { sdWith "ok" with value := .finite 20 }),
   ("Temp3", { sdWith "ok" with value := .finite 30 }),
   ("Temp4", { sdWith "ok" with value := .finite 40 }),
   ("Temp5", { sdWith "ok" with value := .finite 200 })]

/-- A sensor row whose labels carry no `value`/`reading` keyword and whose
name-role column is not literally called `Sensor`. -/
def exampleRowC5 : Row :=
  [("name", RawValue.str "abc"), ("data", RawValue.str "42")]

/-- Two sensor rows resolving to the same sensor name `A`. -/
def exampleRowsDup : List Row :=
  [[("Sensor", RawValue.str "A"), ("Value", RawValue.num 1)],
   [("Sensor", RawValue.str "A"), ("Value", RawValue.num 2)]]

/-- A degenerate uniform oracle: every draw returns 50. -/
def g50 : ℕ → ℚ := fun _ => 50

/-- The empty registry (the state at process start). -/
def emptyRegistry : Registry :=
  { rack_files := [], rack_data := [], rack_metadata := [],
    sensor_categories := [], current_state := [] }

/-- A registry holding one published rack snapshot (pre-reload state). -/
def exampleRegistry : Registry :=
  { rack_files := [(1,
      { filename := "rack_1.csv",
        table := [[("Sensor", RawValue.str "T"), ("Value", RawValue.num 50)]],
        all_files := ["rack_1.csv"] })]
    rack_data := [(1,
      { sensors := [("T", { sdWith "ok" with value := .finite 50 })]
        status := "normal"
        temperature := .finite 50
        power := .finite 1
        network := defaultNetworkMetrics
        sensor_count := 1 })]
    rack_metadata := [(1,
      { filename := "rack_1.csv"
        sensor_categories :=
          { temperature := 1, power := 0, network := 0, cooling := 0,
            total := 1 } })]
    sensor_categories := [("temperature", ["T"])]
    current_state := [("T", .finite 50)] }

/-- A file system whose sensor folder exists but whose directory listing
raises. -/
def fsListingError : FS :=
  { sensorFolderExists := true
    sensorListing := .error "listing failed"
    readSensor := fun _ => .error "unused"
    networkFolderExists := false
    networkListing := .ok []
    readNetwork := fun _ => .error "unused" }

/-- A file system with no discoverable input files at all (neither the
sensor folder nor the network folder exists). -/
def fsNoFiles : FS :=
  { sensorFolderExists := false
    sensorListing := .ok []
    readSensor := fun _ => .error "unused"
    networkFolderExists := false
    networkListing := .ok []
    readNetwork := fun _ => .error "unused" }

/-! ## Helper lemmas -/

theorem statusCounts_foldl (l : List (String × SensorData)) (acc : ℕ × ℕ × ℕ) :
    l.foldl
      (fun c p =>
        match sensorEffStatus p.1 p.2 with
        | .crit => (c.1 + 1, c.2.1, c.2.2)
        | .warn => (c.1, c.2.1 + 1, c.2.2)
        | .norm => (c.1, c.2.1, c.2.2 + 1))
      acc =
    (acc.1 + critCount l, acc.2.1 + warnCount l, acc.2.2 + normCount l) := by
  induction l generalizing acc with
  | nil => simp [critCount, warnCount, normCount]
  | cons p t ih =>
    rcases h : sensorEffStatus p.1 p.2 with _ | _ | _ <;>
      simp [critCount, warnCount, normCount, List.countP_cons, h, ih] <;>
      omega

theorem statusCounts_eq (l : List (String × SensorData)) :
    statusCounts l = (critCount l, warnCount l, normCount l) := by
  have h := statusCounts_foldl l (0, 0, 0)
  simpa [statusCounts] using h

theorem effCounts_sum (l : List (String × SensorData)) :
    critCount l + warnCount l + normCount l = l.length := by
  induction l with
  | nil => simp [critCount, warnCount, normCount]
  | cons p t ih =>
    rcases h : sensorEffStatus p.1 p.2 with _ | _ | _ <;>
      simp [critCount, warnCount, normCount, List.countP_cons, h] at ih ⊢ <;>
      omega

/-! ## Claims -/

/-- C1: for every non-empty sensor mapping, `calculate_rack_status`
returns `"critical"` iff the critical count is positive and
criticalCount/totalSensors > 0.10; otherwise `"warning"` iff the warning
count is positive and warningCount/totalSensors > 0.20; otherwise
`"normal"`; the empty mapping yields `"unknown"`; in particular a rack
with exactly 10% critical sensors is not critical. -/
theorem C1_rack_status_thresholds :
    calculate_rack_status [] = "unknown" ∧
    ∀ sensors : List (String × SensorData), sensors ≠ [] →
      (calculate_rack_status sensors = "critical" ↔
        0 < critCount sensors ∧
          (1 : ℚ) / 10 < (critCount sensors : ℚ) / (sensors.length : ℚ)) ∧
      (calculate_rack_status sensors = "warning" ↔
        ¬(0 < critCount sensors ∧
            (1 : ℚ) / 10 < (critCount sensors : ℚ) / (sensors.length : ℚ)) ∧
          0 < warnCount sensors ∧
          (1 : ℚ) / 5 < (warnCount sensors : ℚ) / (sensors.length : ℚ)) ∧
      (calculate_rack_status sensors = "normal" ↔
        ¬(0 < critCount sensors ∧
            (1 : ℚ) / 10 < (critCount sensors : ℚ) / (sensors.length : ℚ)) ∧
          ¬(0 < warnCount sensors ∧
            (1 : ℚ) / 5 < (warnCount sensors : ℚ) / (sensors.length : ℚ))) ∧
      (10 * critCount sensors = sensors.length →
        calculate_rack_status sensors ≠ "critical") := by
  constructor
  · rfl
  · intro sensors hne
    have hlen : sensors.length ≠ 0 := by
      simpa [List.length_eq_zero] using hne
    have hsum : critCount sensors + warnCount sensors + normCount sensors =
        sensors.length := effCounts_sum sensors
    have hstat : calculate_rack_status sensors =
        (if critCount sensors + warnCount sensors + normCount sensors = 0
         then "unknown"
         else if 0 < critCount sensors ∧ (1 : ℚ) / 10 <
             (critCount sensors : ℚ) /
             ((critCount sensors + warnCount sensors + normCount sensors : ℕ) : ℚ)
           then "critical"
         else if 0 < warnCount sensors ∧ (1 : ℚ) / 5 <
             (warnCount sensors : ℚ) /
             ((critCount sensors + warnCount sensors + normCount sensors : ℕ) : ℚ)
           then "warning"
         else "normal") := by
      simp only [calculate_rack_status, statusCounts_eq]
    rw [hsum] at hstat
    rw [if_neg hlen] at hstat
    have hiff1 : calculate_rack_status sensors = "critical" ↔
        0 < critCount sensors ∧
          (1 : ℚ) / 10 < (critCount sensors : ℚ) / (sensors.length : ℚ) := by
      rw [hstat]
      split_ifs with h1 h2
      · exact iff_of_true rfl h1
      · exact iff_of_false (by decide) h1
      · exact iff_of_false (by decide) h1
    have hiff2 : calculate_rack_status sensors = "warning" ↔
        ¬(0 < critCount sensors ∧
            (1 : ℚ) / 10 < (critCount sensors : ℚ) / (sensors.length : ℚ)) ∧
          0 < warnCount sensors ∧
          (1 : ℚ) / 5 < (warnCount sensors : ℚ) / (sensors.length : ℚ) := by
      rw [hstat]
      split_ifs with h1 h2
      · exact iff_of_false (by decide) (fun hr => hr.1 h1)
      · exact iff_of_true rfl ⟨h1, h2⟩
      · exact iff_of_false (by decide) (fun hr => h2 hr.2)
    have hiff3 : calculate_rack_status sensors = "normal" ↔
        ¬(0 < critCount sensors ∧
            (1 : ℚ) / 10 < (critCount sensors : ℚ) / (sensors.length : ℚ)) ∧
          ¬(0 < warnCount sensors ∧
            (1 : ℚ) / 5 < (warnCount sensors : ℚ) / (sensors.length : ℚ)) := by
      rw [hstat]
      split_ifs with h1 h2
      · exact iff_of_false (by decide) (fun hr => hr.1 h1)
      · exact iff_of_false (by decide) (fun hr => hr.2 h2)
      · exact iff_of_true rfl ⟨h1, h2⟩
    refine ⟨hiff1, hiff2, hiff3, ?_⟩
    intro hb hcrit
    have h10 : (critCount sensors : ℚ) / (sensors.length : ℚ) = 1 / 10 := by
      have hccpos : 0 < critCount sensors := (hiff1.mp hcrit).1
      have hlq : ((sensors.length : ℚ)) ≠ 0 := by
        exact_mod_cast hlen
      have hb' : ((10 : ℚ)) * (critCount sensors : ℚ) = (sensors.length : ℚ) := by
        exact_mod_cast congrArg (fun n : ℕ => (n : ℚ)) hb
      field_simp
      linarith [hb']
    have := (hiff1.mp hcrit).2
    rw [h10] at this
    exact lt_irrefl _ this

/-- Witness for C1: ten sensors with exactly one critical one (a 10%
boundary rack); the theorem's hypotheses hold and the rack is `normal`,
not `critical`. -/
theorem C1_rack_status_thresholds_witness :
    exampleSensors10 ≠ [] ∧
    (calculate_rack_status exampleSensors10 = "critical" ↔
      0 < critCount exampleSensors10 ∧
        (1 : ℚ) / 10 <
          (critCount exampleSensors10 : ℚ) / (exampleSensors10.length : ℚ)) ∧
    10 * critCount exampleSensors10 = exampleSensors10.length ∧
    calculate_rack_status exampleSensors10 = "normal" :=
  ⟨by decide,
   (C1_rack_status_thresholds.2 exampleSensors10 (by decide)).1,
   by decide, by with_unfolding_all decide⟩

/-- C2 (code bug): a sensor whose status text is `"non-critical"` is
counted as a *critical* sensor by `calculate_rack_status`, because the
substring test `'critical' in status` is evaluated before
`'non-critical' in status` and `"critical"` is a substring of
`"non-critical"` (the non-critical branch of the code is unreachable);
the claim and the spec say such a sensor counts as a warning sensor.
A single-sensor rack with status text `non-critical` therefore reports
`"critical"`. -/
theorem C2_noncritical_counted_as_critical :
    sensorEffStatus "PSU1" (sdWith "non-critical") = EffStatus.crit ∧
    statusCounts [("PSU1", sdWith "non-critical")] = (1, 0, 0) ∧
    calculate_rack_status [("PSU1", sdWith "non-critical")] = "critical" :=
  ⟨by decide, by decide, by with_unfolding_all decide⟩

theorem temps_foldl (l : List (String × SensorData)) (acc : List PyFloat) :
    l.foldl (fun acc p => if isTempSample p.1 p.2 then acc ++ [p.2.value]
      else acc) acc = acc ++ tempSamples l := by
  induction l generalizing acc with
  | nil => simp [tempSamples]
  | cons p t ih =>
    by_cases h : isTempSample p.1 p.2 <;>
      simp [tempSamples, List.filterMap_cons, h, ih]

theorem pfInsertSorted_length (x : PyFloat) (l : List PyFloat) :
    (pfInsertSorted x l).length = l.length + 1 := by
  induction l with
  | nil => rfl
  | cons y t ih =>
    by_cases h : pfLt y x <;> simp [pfInsertSorted, h, ih]

theorem pySorted_length (l : List PyFloat) :
    (pySorted l).length = l.length := by
  induction l with
  | nil => rfl
  | cons x t ih =>
    simp only [pySorted, List.foldr_cons] at ih ⊢
    rw [pfInsertSorted_length, ih, List.length_cons]

/-- C4: for every non-empty sensor mapping, `calculate_rack_temperature`
restricts to temperature-named (non-voltage) sensors with values strictly
between -10 and 120; with more than 4 such samples it returns the mean of
the sorted samples from index `n/4` (inclusive) to `3n/4` (exclusive,
floor division) rounded to 1 decimal, with 4 or fewer the mean of all of
them rounded to 1 decimal, and with zero samples the default `40.0`. -/
theorem C4_rack_temperature (sensors : List (String × SensorData))
    (hne : sensors ≠ []) :
    (tempSamples sensors = [] →
      calculate_rack_temperature sensors = .finite 40) ∧
    (4 < (tempSamples sensors).length →
      calculate_rack_temperature sensors =
        pfRound 1 (pfDivNat
          (pfSum (pySlice (pySorted (tempSamples sensors))
            ((tempSamples sensors).length / 4)
            (3 * (tempSamples sensors).length / 4)))
          (pySlice (pySorted (tempSamples sensors))
            ((tempSamples sensors).length / 4)
            (3 * (tempSamples sensors).length / 4)).length)) ∧
    (0 < (tempSamples sensors).length → (tempSamples sensors).length ≤ 4 →
      calculate_rack_temperature sensors =
        pfRound 1 (pfDivNat (pfSum (tempSamples sensors))
          (tempSamples sensors).length)) := by
  refine ⟨?_, ?_, ?_⟩
  · intro h
    simp only [calculate_rack_temperature, temps_foldl, List.nil_append]
    rw [if_neg (not_not_intro h)]
  · intro h
    have hne' : tempSamples sensors ≠ [] := by
      intro hc; rw [hc] at h; simp at h
    simp only [calculate_rack_temperature, temps_foldl, List.nil_append]
    rw [if_pos hne', pySorted_length, if_pos h]
  · intro hpos hle
    have hne' : tempSamples sensors ≠ [] := by
      intro hc; rw [hc] at hpos; simp at hpos
    have hng : ¬ (tempSamples sensors).length > 4 := by omega
    simp only [calculate_rack_temperature, temps_foldl, List.nil_append]
    rw [if_pos hne', pySorted_length, if_neg hng]

/-- Witness for C4: the spec's example — temperature samples
10, 20, 30, 40, 200; the out-of-range 200 is excluded before trimming, so
4 samples remain and the result is the plain mean 25.0. -/
theorem C4_rack_temperature_witness :
    exampleTempSensors ≠ [] ∧
    0 < (tempSamples exampleTempSensors).length ∧
    (tempSamples exampleTempSensors).length ≤ 4 ∧
    calculate_rack_temperature exampleTempSensors =
      pfRound 1 (pfDivNat (pfSum (tempSamples exampleTempSensors))
        (tempSamples exampleTempSensors).length) ∧
    calculate_rack_temperature exampleTempSensors = .finite 25 :=
  ⟨by decide,
   by with_unfolding_all decide,
   by with_unfolding_all decide,
   (C4_rack_temperature exampleTempSensors (by decide)).2.2
     (by with_unfolding_all decide) (by with_unfolding_all decide),
   by with_unfolding_all decide⟩

theorem takeWhile_all {α : Type} (p : α → Bool) (l : List α) :
    (l.takeWhile p).all p = true := by
  rw [List.all_eq_true]
  intro x hx
  exact List.mem_takeWhile_imp hx

theorem all_take {α : Type} {p : α → Bool} {l : List α} (k : ℕ)
    (h : l.all p = true) : (l.take k).all p = true := by
  rw [List.all_eq_true] at h ⊢
  intro x hx
  exact h x (List.mem_of_mem_take hx)

theorem takeWhile_append_all {α : Type} {p : α → Bool} {a : List α}
    (b : List α) (h : a.all p = true) :
    (a ++ b).takeWhile p = a ++ b.takeWhile p := by
  induction a with
  | nil => rfl
  | cons x t ih =>
    rw [List.all_cons, Bool.and_eq_true] at h
    simp [List.takeWhile_cons, h.1, ih h.2]

theorem dropWhile_append_all {α : Type} {p : α → Bool} {a : List α}
    (b : List α) (h : a.all p = true) :
    (a ++ b).dropWhile p = b.dropWhile p := by
  induction a with
  | nil => rfl
  | cons x t ih =>
    rw [List.all_cons, Bool.and_eq_true] at h
    simp [List.dropWhile_cons, h.1, ih h.2]

/-- The character class `\d|\.` used by the mantissa. -/
theorem digitdot_of_digit {c : Char} (h : c.isDigit = true) :
    (c.isDigit || c = '.') = true := by
  simp [h]

theorem all_digitdot_of_digits {l : List Char}
    (h : l.all Char.isDigit = true) :
    l.all (fun c => c.isDigit || c = '.') = true := by
  rw [List.all_eq_true] at h ⊢
  intro x hx
  exact digitdot_of_digit (h x hx)

theorem digit_not_sign {c : Char} (h : c.isDigit = true) :
    ¬(c = '+' ∨ c = '-') := by
  rintro (rfl | rfl) <;> simp at h

theorem getLast?_digit {l : List Char} (h : l.all Char.isDigit = true)
    (hne : l ≠ []) :
    (match l.getLast? with
     | some c => c.isDigit
     | none => false) = true := by
  rw [List.getLast?_eq_getLast l hne]
  rw [List.all_eq_true] at h
  exact h _ (List.getLast_mem hne)

theorem countP_dots_digits {l : List Char} (h : l.all Char.isDigit = true) :
    l.countP (fun c => decide (c = '.')) = 0 := by
  rw [List.countP_eq_zero]
  intro a ha
  rw [List.all_eq_true] at h
  have := h a ha
  simp only [decide_eq_true_eq]
  intro hc
  rw [hc] at this
  simp at this

theorem mantOK_digits {d : List Char} (h : d.all Char.isDigit = true)
    (hne : d ≠ []) : mantOK d = true := by
  unfold mantOK
  simp only [Bool.and_eq_true, decide_eq_true_eq]
  exact ⟨⟨hne, all_digitdot_of_digits h⟩,
    ⟨by rw [countP_dots_digits h]; omega, getLast?_digit h hne⟩⟩

theorem mantOK_dot {a d : List Char} (ha : a.all Char.isDigit = true)
    (hd : d.all Char.isDigit = true) (hne : d ≠ []) :
    mantOK (a ++ '.' :: d) = true := by
  unfold mantOK
  simp only [Bool.and_eq_true, decide_eq_true_eq]
  refine ⟨⟨by simp, ?_⟩, ⟨?_, ?_⟩⟩
  · rw [List.all_append, Bool.and_eq_true]
    refine ⟨all_digitdot_of_digits ha, ?_⟩
    rw [List.all_cons, Bool.and_eq_true]
    exact ⟨by simp, all_digitdot_of_digits hd⟩
  · rw [List.countP_append, countP_dots_digits ha, List.countP_cons,
      countP_dots_digits hd]
    simp
  · cases d with
    | nil => exact absurd rfl hne
    | cons y t =>
      rw [List.getLast?_append, List.getLast?_cons_cons,
        List.getLast?_eq_getLast (y :: t) (by simp)]
      simp only [Option.or]
      rw [List.all_eq_true] at hd
      exact hd _ (List.getLast_mem (by simp))

theorem expOK_head {x : List Char} (h : expOK x = true) :
    x = [] ∨ ∃ t, (x = 'e' :: t ∨ x = 'E' :: t) := by
  cases x with
  | nil => exact Or.inl rfl
  | cons c t =>
    right
    unfold expOK at h
    rw [Bool.and_eq_true, Bool.or_eq_true] at h
    rcases h.1 with hc | hc <;>
      [exact ⟨t, Or.inl (by rw [of_decide_eq_true hc])⟩;
       exact ⟨t, Or.inr (by rw [of_decide_eq_true hc])⟩]

theorem takeWhile_digitdot_exp {x : List Char} (h : expOK x = true) :
    x.takeWhile (fun c => c.isDigit || c = '.') = [] ∧
    x.dropWhile (fun c => c.isDigit || c = '.') = x := by
  rcases expOK_head h with rfl | ⟨t, rfl | rfl⟩
  · exact ⟨rfl, rfl⟩
  · exact ⟨rfl, rfl⟩
  · exact ⟨rfl, rfl⟩

theorem bodyOK_of_parts {m x : List Char}
    (hm : mantOK m = true)
    (hmd : m.all (fun c => c.isDigit || c = '.') = true)
    (hx : expOK x = true) : bodyOK (m ++ x) = true := by
  unfold bodyOK
  rw [takeWhile_append_all x hmd, dropWhile_append_all x hmd,
    (takeWhile_digitdot_exp hx).1, (takeWhile_digitdot_exp hx).2,
    List.append_nil]
  rw [Bool.and_eq_true]
  exact ⟨hm, hx⟩

theorem expOK_tryExpCh (l : List Char) : expOK (tryExpCh l) = true := by
  cases l with
  | nil => rfl
  | cons c t =>
    cases t with
    | nil => rfl
    | cons s t2 =>
      simp only [tryExpCh]
      by_cases hc : c = 'e' ∨ c = 'E'
      · rw [if_pos hc]
        by_cases hs : s = '+' ∨ s = '-'
        · rw [if_pos hs]
          by_cases hd : t2.takeWhile Char.isDigit = []
          · rw [if_pos hd]; rfl
          · rw [if_neg hd]
            simp only [expOK]
            rw [Bool.and_eq_true]
            constructor
            · rcases hc with rfl | rfl <;> simp
            · rw [if_pos hs, Bool.and_eq_true]
              exact ⟨by simpa using hd, takeWhile_all _ _⟩
        · rw [if_neg hs]
          by_cases hd : (s :: t2).takeWhile Char.isDigit = []
          · rw [if_pos hd]; rfl
          · rw [if_neg hd]
            have hsd : s.isDigit = true := by
              by_contra hns
              rw [List.takeWhile_cons, if_neg (by simpa using hns)] at hd
              exact hd rfl
            rw [List.takeWhile_cons, if_pos hsd]
            simp only [expOK]
            rw [Bool.and_eq_true]
            constructor
            · rcases hc with rfl | rfl <;> simp
            · rw [if_neg hs, Bool.and_eq_true]
              refine ⟨by simp, ?_⟩
              rw [List.all_cons, Bool.and_eq_true]
              exact ⟨hsd, takeWhile_all _ _⟩
      · rw [if_neg hc]; rfl

theorem bodyOK_tryFromCh {pre l r : List Char}
    (hpre : pre.all Char.isDigit = true)
    (h : tryFromCh pre l = some r) : bodyOK r = true := by
  unfold tryFromCh at h
  split at h
  · next t =>
    by_cases hd : t.takeWhile Char.isDigit = []
    · rw [if_pos hd] at h; exact absurd h (by simp)
    · rw [if_neg hd] at h
      injection h with h
      subst h
      have hr : pre ++ '.' :: (t.takeWhile Char.isDigit ++
          tryExpCh (t.dropWhile Char.isDigit)) =
          (pre ++ '.' :: t.takeWhile Char.isDigit) ++
          tryExpCh (t.dropWhile Char.isDigit) := by
        simp
      rw [hr]
      refine bodyOK_of_parts (mantOK_dot hpre (takeWhile_all _ _) hd) ?_
        (expOK_tryExpCh _)
      rw [List.all_append, Bool.and_eq_true]
      refine ⟨all_digitdot_of_digits hpre, ?_⟩
      rw [List.all_cons, Bool.and_eq_true]
      exact ⟨by simp, all_digitdot_of_digits (takeWhile_all _ _)⟩
  · by_cases hd : l.takeWhile Char.isDigit = []
    · rw [if_pos hd] at h; exact absurd h (by simp)
    · rw [if_neg hd] at h
      injection h with h
      subst h
      have hall : (pre ++ l.takeWhile Char.isDigit).all Char.isDigit = true := by
        rw [List.all_append, Bool.and_eq_true]
        exact ⟨hpre, takeWhile_all _ _⟩
      have hr : pre ++ l.takeWhile Char.isDigit ++
          tryExpCh (l.dropWhile Char.isDigit) =
          (pre ++ l.takeWhile Char.isDigit) ++
          tryExpCh (l.dropWhile Char.isDigit) := by
        simp
      rw [hr]
      refine bodyOK_of_parts (mantOK_digits hall (by simp [hd])) ?_
        (expOK_tryExpCh _)
      exact all_digitdot_of_digits hall

theorem bodyOK_bodyLoopCh {ds rest : List Char} {r : List Char}
    (hds : ds.all Char.isDigit = true) :
    ∀ k, bodyLoopCh ds rest k = some r → bodyOK r = true := by
  intro k
  induction k with
  | zero =>
    intro h
    exact bodyOK_tryFromCh (by rfl) h
  | succ k ih =>
    intro h
    unfold bodyLoopCh at h
    split at h
    · injection h with h
      subst h
      next heq => exact bodyOK_tryFromCh (all_take (k + 1) hds) heq
    · exact ih h

theorem bodyOK_matchBodyCh {l r : List Char}
    (h : matchBodyCh l = some r) : bodyOK r = true :=
  bodyOK_bodyLoopCh (takeWhile_all _ _) _ h

theorem bodyOK_head {r : List Char} (h : bodyOK r = true) :
    tokenOK r = bodyOK r := by
  cases r with
  | nil =>
    exfalso
    unfold bodyOK mantOK at h
    simp at h
  | cons a t =>
    have ha : (a.isDigit || a = '.') = true := by
      by_contra hna
      unfold bodyOK at h
      rw [List.takeWhile_cons, if_neg (by simpa using hna)] at h
      unfold mantOK at h
      simp at h
    have hs : ¬(a = '+' ∨ a = '-') := by
      rintro (rfl | rfl) <;> simp at ha
    simp only [tokenOK]
    rw [if_neg hs]

theorem tokenOK_matchAtCh {l t : List Char} (h : matchAtCh l = some t) :
    tokenOK t = true := by
  cases l with
  | nil => exact absurd h (by simp [matchAtCh])
  | cons c lt =>
    simp only [matchAtCh] at h
    by_cases hc : c = '+' ∨ c = '-'
    · rw [if_pos hc] at h
      rw [Option.map_eq_some'] at h
      obtain ⟨r, hr, rfl⟩ := h
      have hb := bodyOK_matchBodyCh hr
      simp only [tokenOK]
      rw [if_pos hc]
      exact hb
    · rw [if_neg hc] at h
      have hb := bodyOK_matchBodyCh h
      rw [bodyOK_head hb]
      exact hb

theorem tokenOK_reSearchCh {l t : List Char} (h : reSearchCh l = some t) :
    tokenOK t = true := by
  induction l with
  | nil => exact absurd h (by simp [reSearchCh])
  | cons c lt ih =>
    unfold reSearchCh at h
    split at h
    · injection h with h
      subst h
      next heq => exact tokenOK_matchAtCh heq
    · exact ih h

theorem prefix_cons_cons {α : Type} {l1 l2 : List α} (a : α)
    (h : l1 <+: l2) : (a :: l1) <+: (a :: l2) := by
  obtain ⟨tl, ht⟩ := h
  exact ⟨tl, by rw [List.cons_append, ht]⟩

theorem prefix_append_left {α : Type} {l2 l3 : List α} (l1 : List α)
    (h : l2 <+: l3) : (l1 ++ l2) <+: (l1 ++ l3) := by
  obtain ⟨tl, ht⟩ := h
  exact ⟨tl, by rw [List.append_assoc, ht]⟩

theorem tryExpCh_pre (l : List Char) : tryExpCh l <+: l := by
  cases l with
  | nil => exact List.nil_prefix
  | cons c t =>
    cases t with
    | nil => exact List.nil_prefix
    | cons s t2 =>
      simp only [tryExpCh]
      by_cases hc : c = 'e' ∨ c = 'E'
      · rw [if_pos hc]
        by_cases hs : s = '+' ∨ s = '-'
        · rw [if_pos hs]
          by_cases hd : t2.takeWhile Char.isDigit = []
          · rw [if_pos hd]; exact List.nil_prefix
          · rw [if_neg hd]
            exact prefix_cons_cons c (prefix_cons_cons s
              (List.takeWhile_prefix _))
        · rw [if_neg hs]
          by_cases hd : (s :: t2).takeWhile Char.isDigit = []
          · rw [if_pos hd]; exact List.nil_prefix
          · rw [if_neg hd]
            exact prefix_cons_cons c (List.takeWhile_prefix _)
      · rw [if_neg hc]; exact List.nil_prefix

theorem tryFromCh_shape {pre l r : List Char}
    (h : tryFromCh pre l = some r) : ∃ m, r = pre ++ m ∧ m <+: l := by
  unfold tryFromCh at h
  split at h
  · next t =>
    by_cases hd : t.takeWhile Char.isDigit = []
    · rw [if_pos hd] at h; exact absurd h (by simp)
    · rw [if_neg hd] at h
      injection h with h
      refine ⟨'.' :: (t.takeWhile Char.isDigit ++
        tryExpCh (t.dropWhile Char.isDigit)), h.symm, ?_⟩
      refine prefix_cons_cons '.' ?_
      have := prefix_append_left (t.takeWhile Char.isDigit)
        (tryExpCh_pre (t.dropWhile Char.isDigit))
      rwa [List.takeWhile_append_dropWhile] at this
  · by_cases hd : l.takeWhile Char.isDigit = []
    · rw [if_pos hd] at h; exact absurd h (by simp)
    · rw [if_neg hd] at h
      injection h with h
      refine ⟨l.takeWhile Char.isDigit ++
        tryExpCh (l.dropWhile Char.isDigit), by rw [← h, List.append_assoc], ?_⟩
      have := prefix_append_left (l.takeWhile Char.isDigit)
        (tryExpCh_pre (l.dropWhile Char.isDigit))
      rwa [List.takeWhile_append_dropWhile] at this

theorem bodyLoopCh_pre {ds rest r : List Char} :
    ∀ k, bodyLoopCh ds rest k = some r → r <+: (ds ++ rest) := by
  intro k
  induction k with
  | zero =>
    intro h
    obtain ⟨m, rfl, hm⟩ := tryFromCh_shape h
    simpa using hm
  | succ k ih =>
    intro h
    unfold bodyLoopCh at h
    split at h
    · injection h with h
      subst h
      next heq =>
        obtain ⟨m, rfl, hm⟩ := tryFromCh_shape heq
        have h2 := prefix_append_left (ds.take (k + 1)) hm
        rwa [← List.append_assoc, List.take_append_drop] at h2
    · exact ih h

theorem matchBodyCh_pre {l r : List Char} (h : matchBodyCh l = some r) :
    r <+: l := by
  have h2 := bodyLoopCh_pre _ h
  rwa [List.takeWhile_append_dropWhile] at h2

theorem matchAtCh_pre {l t : List Char} (h : matchAtCh l = some t) :
    t <+: l := by
  cases l with
  | nil => exact absurd h (by simp [matchAtCh])
  | cons c lt =>
    simp only [matchAtCh] at h
    by_cases hc : c = '+' ∨ c = '-'
    · rw [if_pos hc, Option.map_eq_some'] at h
      obtain ⟨r, hr, rfl⟩ := h
      exact prefix_cons_cons c (matchBodyCh_pre hr)
    · rw [if_neg hc] at h
      exact matchBodyCh_pre h

theorem reSearchCh_infix {l t : List Char} (h : reSearchCh l = some t) :
    t <:+: l := by
  induction l with
  | nil => exact absurd h (by simp [reSearchCh])
  | cons c lt ih =>
    unfold reSearchCh at h
    split at h
    · injection h with h
      subst h
      next heq => exact (matchAtCh_pre heq).isInfix
    · obtain ⟨u, v, huv⟩ := ih h
      exact ⟨c :: u, v, by rw [← huv]; rfl⟩

/-- C3: `parse_sensor_value` is total and never fails—absent/null-like
input yields `0.0`; input directly convertible by `float()` yields that
number; otherwise the first regex match of the stripped string—provably
a substring of it matching the signed decimal-with-optional-exponent
pattern (`tokenOK`)—is converted by `float()` (saturating to `±inf` at
the binary64 overflow threshold), with `0.0` when no match exists;
`parse("42.5C") = 42.5`. -/
theorem C3_parse_sensor_value_total :
    parse_sensor_value .null = .finite 0 ∧
    (∀ q : ℚ, parse_sensor_value (.num q) = .finite q) ∧
    (∀ s f, pyFloatOfString s = some f → parse_sensor_value (.str s) = f) ∧
    (∀ s t, pyFloatOfString s = none →
      reSearchCh (pyStripList s.data) = some t →
      parse_sensor_value (.str s) = pyFloatOfRat (tokenVal t) ∧
        tokenOK t = true ∧ t <:+: pyStripList s.data) ∧
    (∀ s, pyFloatOfString s = none →
      reSearchCh (pyStripList s.data) = none →
      parse_sensor_value (.str s) = .finite 0) ∧
    parse_sensor_value (.str "42.5C") = .finite (85 / 2) := by
  refine ⟨rfl, fun q => rfl, ?_, ?_, ?_, ?_⟩
  · intro s f h
    simp [parse_sensor_value, h]
  · intro s t h1 h2
    exact ⟨by simp [parse_sensor_value, h1, h2], tokenOK_reSearchCh h2,
      reSearchCh_infix h2⟩
  · intro s h1 h2
    simp [parse_sensor_value, h1, h2]
  · with_unfolding_all decide

/-- Witness for C3: the input `"42.5C"` — direct conversion fails, the
regex finds `42.5`, and the parsed value is `42.5`. -/
theorem C3_parse_sensor_value_total_witness :
    pyFloatOfString "42.5C" = none ∧
    reSearchCh (pyStripList "42.5C".data) = some "42.5".data ∧
    (parse_sensor_value (.str "42.5C") =
        pyFloatOfRat (tokenVal "42.5".data) ∧
      tokenOK "42.5".data = true ∧
      "42.5".data <:+: pyStripList "42.5C".data) ∧
    pyFloatOfString "3.5" = some (.finite (7 / 2)) ∧
    parse_sensor_value (.str "3.5") = .finite (7 / 2) :=
  ⟨by decide, by decide,
   C3_parse_sensor_value_total.2.2.2.1 "42.5C" "42.5".data
     (by decide) (by decide),
   by with_unfolding_all decide,
   C3_parse_sensor_value_total.2.2.1 "3.5" (.finite (7 / 2))
     (by with_unfolding_all decide)⟩

/-- C9 counterexample: the strings `"inf"`, `"-inf"` and `"nan"` are
directly convertible by Python's `float()`, so `parse_sensor_value`
returns a non-finite value for them; moreover `float()` saturates
decimal overflow to an infinity rather than raising, so `"1e999"`
converts directly to `inf`, and `"x1e999"` — rejected by direct
conversion — still parses to `inf` through the regex fallback: neither
conversion path preserves finiteness, and the stored value is *not*
always finite. -/
theorem C9_counterexample_inf :
    parse_sensor_value (.str "inf") = PyFloat.inf ∧
    (parse_sensor_value (.str "inf")).isFinite = false ∧
    parse_sensor_value (.str "-inf") = PyFloat.ninf ∧
    parse_sensor_value (.str "nan") = PyFloat.nan ∧
    parse_sensor_value (.str "1e999") = PyFloat.inf ∧
    pyFloatOfString "x1e999" = none ∧
    parse_sensor_value (.str "x1e999") = PyFloat.inf ∧
    (parse_sensor_value (.str "x1e999")).isFinite = false :=
  ⟨by decide, by decide, by decide, by decide,
   by with_unfolding_all decide, by decide,
   by with_unfolding_all decide, by with_unfolding_all decide⟩

/-- C9 (amended): the parser never raises; its result is finite for
every absent/null-like input, every numeric input, every string both
conversion paths reject (falling back to `0.0`), and every string whose
extracted regex token has exact value strictly inside the binary64
overflow range.  Non-finite results arise exactly from `float()`'s
conversion itself: direct conversion of infinity/NaN spellings or of
overflowing decimals, and regex tokens whose magnitude reaches the
overflow threshold, all of which saturate to `±inf`/`nan` rather than
raising. -/
theorem C9_parse_finite_unless_direct_nonfinite :
    (parse_sensor_value .null).isFinite = true ∧
    (∀ q : ℚ, (parse_sensor_value (.num q)).isFinite = true) ∧
    (∀ s t, pyFloatOfString s = none →
      reSearchCh (pyStripList s.data) = some t →
      -doubleOverflow < tokenVal t → tokenVal t < doubleOverflow →
      (parse_sensor_value (.str s)).isFinite = true) ∧
    (∀ s, pyFloatOfString s = none →
      reSearchCh (pyStripList s.data) = none →
      (parse_sensor_value (.str s)).isFinite = true) := by
  refine ⟨rfl, fun q => rfl, ?_, ?_⟩
  · intro s t h1 h2 hlo hhi
    have hv : parse_sensor_value (.str s) = pyFloatOfRat (tokenVal t) := by
      simp [parse_sensor_value, h1, h2]
    rw [hv]
    unfold pyFloatOfRat
    rw [if_neg (not_le.mpr hhi), if_neg (not_le.mpr hlo)]
    rfl
  · intro s h1 h2
    simp [parse_sensor_value, h1, h2, PyFloat.isFinite]

/-- Witness for C9 (amended): `"temp 42C"` is rejected by direct
conversion, the regex extracts the in-range token `42`, and the parsed
value is finite; `"no number"` has no token at all and parses to the
finite `0.0`. -/
theorem C9_parse_finite_witness :
    pyFloatOfString "temp 42C" = none ∧
    reSearchCh (pyStripList "temp 42C".data) = some "42".data ∧
    -doubleOverflow < tokenVal "42".data ∧
    tokenVal "42".data < doubleOverflow ∧
    (parse_sensor_value (.str "temp 42C")).isFinite = true ∧
    (parse_sensor_value (.str "no number")).isFinite = true :=
  ⟨by decide, by decide, by with_unfolding_all decide,
   by with_unfolding_all decide,
   C9_parse_finite_unless_direct_nonfinite.2.2.1 "temp 42C" "42".data
     (by decide) (by decide) (by with_unfolding_all decide)
     (by with_unfolding_all decide),
   C9_parse_finite_unless_direct_nonfinite.2.2.2 "no number" (by decide)
     (by decide)⟩

/-- C5 counterexample: a row with columns `name` and `data` - no label
contains `value`/`reading`, the name role claims column `name`, so the
claim predicts the value comes from `data` (42.0); the code's fallback
only skips columns *literally* labelled `Sensor`/`Status`/`Units`, takes
the `name` column itself, and parses the sensor's own name to `0.0`. -/
theorem C5_counterexample_name_column :
    (∀ p ∈ exampleRowC5,
      (pyIn "value" (pyLower p.1) || pyIn "reading" (pyLower p.1)) = false) ∧
    claimFallbackValue exampleRowC5 = some (.finite 42) ∧
    (processSensorRow exampleRowC5).map (fun e => e.2.value) =
      some (.finite 0) ∧
    (PyFloat.finite 42 : PyFloat) ≠ .finite 0 :=
  ⟨by decide, by with_unfolding_all decide, by decide,
   by with_unfolding_all decide⟩

/-- C5 (amended): for every row whose labels carry no `value`/`reading`
keyword, the loader takes the row's value from the first column whose
label is not literally `Sensor`, `Status` or `Units` (parsed with the
value parser), regardless of which columns the name/status/units roles
claimed; `0.0` if every column is so labelled. -/
theorem C5_fallback_literal_labels (row : Row)
    (hnov : ∀ p ∈ row,
      (pyIn "value" (pyLower p.1) || pyIn "reading" (pyLower p.1)) = false) :
    sensorRowValue row =
      (match row.find? (fun p =>
          decide (p.1 ≠ "Sensor" ∧ p.1 ≠ "Status" ∧ p.1 ≠ "Units")) with
        | some p => parse_sensor_value p.2
        | none => .finite 0) ∧
    ∀ nm sd, processSensorRow row = some (nm, sd) →
      sd.value = sensorRowValue row := by
  constructor
  · have hfind : row.find? (fun p =>
        pyIn "value" (pyLower p.1) || pyIn "reading" (pyLower p.1)) = none :=
      List.find?_eq_none.mpr (fun x hx => by rw [hnov x hx]; simp)
    unfold sensorRowValue
    rw [hfind]
  · intro nm sd h
    unfold processSensorRow at h
    split at h
    · exact absurd h (by simp)
    · split at h
      · exact absurd h (by simp)
      · injection h with h
        injection h with h1 h2
        rw [← h2]

/-- Witness for C5 (amended): the counterexample row instantiates the
amended claim — the fallback takes column `name` and parses `"abc"` to
`0.0`. -/
theorem C5_fallback_literal_labels_witness :
    (∀ p ∈ exampleRowC5,
      (pyIn "value" (pyLower p.1) || pyIn "reading" (pyLower p.1)) = false) ∧
    sensorRowValue exampleRowC5 =
      (match exampleRowC5.find? (fun p =>
          decide (p.1 ≠ "Sensor" ∧ p.1 ≠ "Status" ∧ p.1 ≠ "Units")) with
        | some p => parse_sensor_value p.2
        | none => .finite 0) ∧
    sensorRowValue exampleRowC5 = .finite 0 :=
  ⟨by decide,
   (C5_fallback_literal_labels exampleRowC5 (by decide)).1,
   by decide⟩

theorem dictInsert_length_le {κ α : Type} [DecidableEq κ]
    (d : List (κ × α)) (k : κ) (v : α) :
    (dictInsert d k v).length ≤ d.length + 1 := by
  induction d with
  | nil => simp [dictInsert]
  | cons p t ih =>
    by_cases h : p.1 = k <;> simp [dictInsert, h] <;> omega

theorem dictInsert_length_of_mem {κ α : Type} [DecidableEq κ]
    {d : List (κ × α)} {k : κ} (v : α) (h : k ∈ d.map Prod.fst) :
    (dictInsert d k v).length = d.length := by
  induction d with
  | nil => simp at h
  | cons p t ih =>
    by_cases hp : p.1 = k
    · simp [dictInsert, hp]
    · rw [List.map_cons, List.mem_cons] at h
      rcases h with h | h
      · exact absurd h.symm hp
      · simp [dictInsert, hp, ih h]

theorem mem_keys_dictInsert_self {κ α : Type} [DecidableEq κ]
    (d : List (κ × α)) (k : κ) (v : α) :
    k ∈ (dictInsert d k v).map Prod.fst := by
  induction d with
  | nil => simp [dictInsert]
  | cons p t ih =>
    by_cases hp : p.1 = k
    · simp [dictInsert, hp]
    · simp only [dictInsert, if_neg hp, List.map_cons, List.mem_cons]
      exact Or.inr ih

theorem mem_keys_dictInsert {κ α : Type} [DecidableEq κ]
    {d : List (κ × α)} {k' : κ} (k : κ) (v : α)
    (h : k' ∈ d.map Prod.fst) :
    k' ∈ (dictInsert d k v).map Prod.fst := by
  induction d with
  | nil => simp at h
  | cons p t ih =>
    rw [List.map_cons, List.mem_cons] at h
    by_cases hp : p.1 = k
    · simp only [dictInsert, if_pos hp, List.map_cons, List.mem_cons]
      rcases h with h | h
      · exact Or.inl (hp ▸ h)
      · exact Or.inr h
    · simp only [dictInsert, if_neg hp, List.map_cons, List.mem_cons]
      rcases h with h | h
      · exact Or.inl h
      · exact Or.inr (ih h)

theorem insertAll_length_le {κ α : Type} [DecidableEq κ]
    (d : List (κ × α)) (ps : List (κ × α)) :
    (insertAll d ps).length ≤ d.length + ps.length := by
  induction ps generalizing d with
  | nil => simp [insertAll]
  | cons p t ih =>
    calc (insertAll d (p :: t)).length
        = (insertAll (dictInsert d p.1 p.2) t).length := rfl
      _ ≤ (dictInsert d p.1 p.2).length + t.length := ih _
      _ ≤ d.length + 1 + t.length := by
          have := dictInsert_length_le d p.1 p.2
          omega
      _ = d.length + (p :: t).length := by simp; omega

theorem insertAll_length_lt_of_mem {κ α : Type} [DecidableEq κ]
    {d : List (κ × α)} {ps : List (κ × α)}
    (h : ∃ p ∈ ps, p.1 ∈ d.map Prod.fst) :
    (insertAll d ps).length < d.length + ps.length := by
  induction ps generalizing d with
  | nil => obtain ⟨p, hp, -⟩ := h; simp at hp
  | cons p t ih =>
    obtain ⟨q, hq, hqd⟩ := h
    rw [List.mem_cons] at hq
    rcases hq with rfl | hq
    · calc (insertAll d (q :: t)).length
          = (insertAll (dictInsert d q.1 q.2) t).length := rfl
        _ ≤ (dictInsert d q.1 q.2).length + t.length := insertAll_length_le _ _
        _ = d.length + t.length := by rw [dictInsert_length_of_mem _ hqd]
        _ < d.length + (q :: t).length := by simp
    · calc (insertAll d (p :: t)).length
          = (insertAll (dictInsert d p.1 p.2) t).length := rfl
        _ < (dictInsert d p.1 p.2).length + t.length :=
            ih ⟨q, hq, mem_keys_dictInsert p.1 p.2 hqd⟩
        _ ≤ d.length + 1 + t.length := by
            have := dictInsert_length_le d p.1 p.2
            omega
        _ = d.length + (p :: t).length := by simp; omega

theorem insertAll_length_lt_of_dup {κ α : Type} [DecidableEq κ]
    {ps : List (κ × α)} (d : List (κ × α))
    (h : ¬ (ps.map Prod.fst).Nodup) :
    (insertAll d ps).length < d.length + ps.length := by
  induction ps generalizing d with
  | nil => exact absurd List.nodup_nil h
  | cons p t ih =>
    rw [List.map_cons, List.nodup_cons] at h
    by_cases hmem : p.1 ∈ t.map Prod.fst
    · obtain ⟨q, hq, hq1⟩ := List.mem_map.mp hmem
      calc (insertAll d (p :: t)).length
          = (insertAll (dictInsert d p.1 p.2) t).length := rfl
        _ < (dictInsert d p.1 p.2).length + t.length :=
            insertAll_length_lt_of_mem
              ⟨q, hq, hq1 ▸ mem_keys_dictInsert_self d p.1 p.2⟩
        _ ≤ d.length + 1 + t.length := by
            have := dictInsert_length_le d p.1 p.2
            omega
        _ = d.length + (p :: t).length := by simp; omega
    · have hnd : ¬ (t.map Prod.fst).Nodup := fun hn => h ⟨hmem, hn⟩
      calc (insertAll d (p :: t)).length
          = (insertAll (dictInsert d p.1 p.2) t).length := rfl
        _ < (dictInsert d p.1 p.2).length + t.length := ih _ hnd
        _ ≤ d.length + 1 + t.length := by
            have := dictInsert_length_le d p.1 p.2
            omega
        _ = d.length + (p :: t).length := by simp; omega

theorem processRackSensors_foldl (rows : List Row)
    (acc : List (String × SensorData) × ℕ) :
    rows.foldl
      (fun acc row =>
        match processSensorRow row with
        | none => acc
        | some e => (dictInsert acc.1 e.1 e.2, acc.2 + 1)) acc =
    (insertAll acc.1 (rows.filterMap processSensorRow),
     acc.2 + (rows.filterMap processSensorRow).length) := by
  induction rows generalizing acc with
  | nil => simp [insertAll]
  | cons r t ih =>
    cases h : processSensorRow r with
    | none => simp [List.foldl_cons, List.filterMap_cons, h, ih]
    | some e =>
      simp only [List.foldl_cons, List.filterMap_cons, h, ih]
      refine Prod.ext rfl ?_
      simp only [List.length_cons]
      omega

theorem processRackSensors_eq (rows : List Row) :
    processRackSensors rows =
    (insertAll [] (rows.filterMap processSensorRow),
     (rows.filterMap processSensorRow).length) := by
  have h := processRackSensors_foldl rows ([], 0)
  simpa [processRackSensors] using h

theorem addNetworkSensors_eq (start : List (String × SensorData) × ℕ)
    (data : List (String × NetEntry)) :
    addNetworkSensors start data =
    (insertAll start.1 (data.map netSensorEntry),
     start.2 + data.length) := by
  induction data generalizing start with
  | nil => simp [addNetworkSensors, insertAll]
  | cons p t ih =>
    simp only [addNetworkSensors, List.foldl_cons] at ih ⊢
    rw [ih]
    refine Prod.ext rfl ?_
    simp only [List.length_cons]
    omega

/-- C10: for every rack table with two or more rows resolving to the same
sensor name, the sensors dict (later duplicate rows overwrite earlier
entries) is strictly smaller than `sensor_count` (every usable row and
every added network interface increments it) — the pair that becomes the
snapshot's `sensors`/`sensor_count` fields. -/
theorem C10_duplicate_names_count_exceeds_sensors (rows : List Row)
    (net : List (String × NetEntry))
    (hdup : ¬ ((rows.filterMap processSensorRow).map Prod.fst).Nodup) :
    (addNetworkSensors (processRackSensors rows) net).1.length <
    (addNetworkSensors (processRackSensors rows) net).2 := by
  rw [addNetworkSensors_eq, processRackSensors_eq]
  simp only
  calc (insertAll (insertAll [] (rows.filterMap processSensorRow))
        (net.map netSensorEntry)).length
      ≤ (insertAll [] (rows.filterMap processSensorRow)).length +
          (net.map netSensorEntry).length := insertAll_length_le _ _
    _ < (rows.filterMap processSensorRow).length + net.length := by
        have h1 := insertAll_length_lt_of_dup
          ([] : List (String × SensorData)) hdup
        simp only [List.length_nil, List.length_map] at h1 ⊢
        omega

/-- Witness for C10: two rows both naming sensor `A` and no network data —
the dict has 1 entry while `sensor_count` is 2. -/
theorem C10_duplicate_names_count_witness :
    ¬ ((exampleRowsDup.filterMap processSensorRow).map Prod.fst).Nodup ∧
    (addNetworkSensors (processRackSensors exampleRowsDup) []).1.length <
      (addNetworkSensors (processRackSensors exampleRowsDup) []).2 ∧
    (addNetworkSensors (processRackSensors exampleRowsDup) []).1.length = 1 ∧
    (addNetworkSensors (processRackSensors exampleRowsDup) []).2 = 2 :=
  ⟨by decide,
   C10_duplicate_names_count_exceeds_sensors exampleRowsDup [] (by decide),
   by decide, by decide⟩

theorem pyRoundInt_le (q : ℚ) : (pyRoundInt q : ℚ) ≤ q + 1 / 2 := by
  unfold pyRoundInt
  split_ifs with h1 h2
  · have := Int.floor_le q
    linarith
  · push_cast
    have : (⌊q⌋ : ℚ) = q - 1 / 2 := by linarith
    linarith
  · have := Int.floor_le (q + 1 / 2)
    linarith

theorem roundTo_two_le (q : ℚ) : roundTo 2 q ≤ q + 1 / 200 := by
  unfold roundTo
  have h := pyRoundInt_le (q * 10 ^ 2)
  have h100 : (0 : ℚ) < 10 ^ 2 := by norm_num
  rw [div_le_iff₀ h100]
  nlinarith

theorem rowStatusOf_ok {q : ℚ} (h : q ≤ 85) :
    rowStatusOf (.finite q) = "ok" := by
  have h95 : pfGtQ (.finite q) 95 = false := by
    simp only [pfGtQ, decide_eq_false_iff_not]
    linarith
  have h85 : pfGtQ (.finite q) 85 = false := by
    simp only [pfGtQ, decide_eq_false_iff_not]
    linarith
  simp [rowStatusOf, h95, h85]

/-- C8: for every network table whose rows yield zero parsed interfaces,
the loader produces exactly 4 synthetic interfaces `eth1..eth4` whose
throughputs are the `uniform(10, 80)` draws (each in `[10, 80)`, stored
rounded to 2 decimals) and whose statuses are `ok` — which is exactly
what the row path's `> 85` warning / `> 95` critical thresholds assign
to these values. -/
theorem C8_zero_rows_synthesize_four (rows : List Row) (g : ℕ → ℚ)
    (hempty : (loadNetworkRows rows).1 = [])
    (hrange : ∀ i, i < 4 → 10 ≤ g i ∧ g i < 80) :
    loadNetworkTable rows g =
      ([("eth1", { value := .finite (roundTo 2 (g 0)), status := "ok", units := "Mbps" }),
        ("eth2", { value := .finite (roundTo 2 (g 1)), status := "ok", units := "Mbps" }),
        ("eth3", { value := .finite (roundTo 2 (g 2)), status := "ok", units := "Mbps" }),
        ("eth4", { value := .finite (roundTo 2 (g 3)), status := "ok", units := "Mbps" })], 4, 4) ∧
    (∀ p ∈ (loadNetworkTable rows g).1, rowStatusOf p.2.value = "ok") := by
  have hsy : ∀ i, i < 4 → synthNetEntry (g i) =
      { value := .finite (roundTo 2 (g i)), status := "ok", units := "Mbps" } := by
    intro i hi
    unfold synthNetEntry
    rw [if_pos (by linarith [(hrange i hi).2])]
  have hmain : loadNetworkTable rows g =
      ([("eth1", { value := .finite (roundTo 2 (g 0)), status := "ok", units := "Mbps" }),
        ("eth2", { value := .finite (roundTo 2 (g 1)), status := "ok", units := "Mbps" }),
        ("eth3", { value := .finite (roundTo 2 (g 2)), status := "ok", units := "Mbps" }),
        ("eth4", { value := .finite (roundTo 2 (g 3)), status := "ok", units := "Mbps" })], 4, 4) := by
    simp only [loadNetworkTable, hempty, if_pos]
    rw [hsy 0 (by omega), hsy 1 (by omega), hsy 2 (by omega),
      hsy 3 (by omega)]
  refine ⟨hmain, ?_⟩
  intro p hp
  rw [hmain] at hp
  have hok : ∀ i, i < 4 → rowStatusOf (.finite (roundTo 2 (g i))) = "ok" := by
    intro i hi
    have hub := roundTo_two_le (g i)
    have := (hrange i hi).2
    exact rowStatusOf_ok (by linarith)
  simp only [List.mem_cons, List.not_mem_nil, or_false] at hp
  rcases hp with rfl | rfl | rfl | rfl
  · exact hok 0 (by omega)
  · exact hok 1 (by omega)
  · exact hok 2 (by omega)
  · exact hok 3 (by omega)

/-- Witness for C8: the empty table with every draw equal to 50 — four
`ok` interfaces `eth1..eth4` with value 50.0. -/
theorem C8_zero_rows_synthesize_four_witness :
    (loadNetworkRows ([] : List Row)).1 = [] ∧
    (∀ i, i < 4 → 10 ≤ g50 i ∧ g50 i < 80) ∧
    loadNetworkTable ([] : List Row) g50 =
      ([("eth1", { value := .finite (roundTo 2 (g50 0)), status := "ok", units := "Mbps" }),
        ("eth2", { value := .finite (roundTo 2 (g50 1)), status := "ok", units := "Mbps" }),
        ("eth3", { value := .finite (roundTo 2 (g50 2)), status := "ok", units := "Mbps" }),
        ("eth4", { value := .finite (roundTo 2 (g50 3)), status := "ok", units := "Mbps" })], 4, 4) :=
  ⟨rfl,
   fun i _ => ⟨by norm_num [g50], by norm_num [g50]⟩,
   (C8_zero_rows_synthesize_four [] g50 rfl
     (fun i _ => ⟨by norm_num [g50], by norm_num [g50]⟩)).1⟩

/-- C6 counterexample: a reload whose directory listing raises leaves the
registry cleared, not the previously published snapshot — `rack_data`
(and the other rack-keyed structures) are emptied *before* the failure
point, so the old snapshot is lost, refuting the claim that a failed
reload leaves the previous registry state in place unchanged. -/
theorem C6_counterexample_failed_reload_clears :
    (load_rack_data fsListingError g50 exampleRegistry).2 =
      some "listing failed" ∧
    (load_rack_data fsListingError g50 exampleRegistry).1 ≠
      exampleRegistry ∧
    (load_rack_data fsListingError g50 exampleRegistry).1.rack_data = [] ∧
    exampleRegistry.rack_data ≠ [] ∧
    (reload_data fsListingError g50 exampleRegistry).2 = false :=
  ⟨by with_unfolding_all decide, by with_unfolding_all decide,
   by with_unfolding_all decide, by with_unfolding_all decide,
   by with_unfolding_all decide⟩

/-- C6 (amended): when a reload fails at the sensor-directory listing
(the first failure point after the clears), the registry is left with the
four rack-keyed structures cleared — not with the old snapshot — while
the stale `current_state` mapping (never cleared) survives. -/
theorem C6_failed_reload_leaves_cleared_state (fs : FS) (g : ℕ → ℚ)
    (st : Registry) (e : String)
    (hex : fs.sensorFolderExists = true)
    (herr : fs.sensorListing = Except.error e) :
    load_rack_data fs g st =
      ({ st with rack_files := [], rack_data := [], rack_metadata := [],
                 sensor_categories := [] }, some e) := by
  simp [load_rack_data, hex, herr]

/-- Witness for C6 (amended): the concrete failing file system and the
populated example registry. -/
theorem C6_failed_reload_leaves_cleared_state_witness :
    fsListingError.sensorFolderExists = true ∧
    fsListingError.sensorListing = Except.error "listing failed" ∧
    load_rack_data fsListingError g50 exampleRegistry =
      ({ exampleRegistry with
          rack_files := []
          rack_data := []
          rack_metadata := []
          sensor_categories := [] },
        some "listing failed") :=
  ⟨rfl, rfl,
   C6_failed_reload_leaves_cleared_state fsListingError g50 exampleRegistry
     "listing failed" rfl rfl⟩

/-- C7 (code bug): with no input files discoverable at all, the load does
synthesize exactly 5 placeholder racks with the fixed sensor names — but
none of them carries any network interface: `create_sample_racks` builds
its sample `network_data` dict and then discards it (only `rack_files`
is stored), and `update_rack_data` finds no network files, so every
sample rack ends with `interface_count = 0` and no network-type sensor,
contradicting the claim's "4 synthetic network interfaces each". -/
theorem C7_sample_racks_have_no_network :
    (load_rack_data fsNoFiles g50 emptyRegistry).2 = none ∧
    (load_rack_data fsNoFiles g50 emptyRegistry).1.rack_data.map
      Prod.fst = [1, 2, 3, 4, 5] ∧
    (load_rack_data fsNoFiles g50 emptyRegistry).1.rack_data.map
      (fun p => p.2.sensors.map Prod.fst) =
      List.replicate 5 sample_sensors ∧
    (load_rack_data fsNoFiles g50 emptyRegistry).1.rack_data.map
      (fun p => p.2.sensor_count) = [10, 10, 10, 10, 10] ∧
    (load_rack_data fsNoFiles g50 emptyRegistry).1.rack_data.map
      (fun p => p.2.network.interface_count) = [0, 0, 0, 0, 0] ∧
    (load_rack_data fsNoFiles g50 emptyRegistry).1.rack_data.map
      (fun p => (p.2.sensors.filter
        (fun q => q.2.stype == "network")).length) = [0, 0, 0, 0, 0] := by
  refine ⟨?_, ?_, ?_, ?_, ?_, ?_⟩ <;> with_unfolding_all decide

end DC

